import Mathlib

/-!
Shallow embedding of the IntentFlow signal-to-decision pipeline
(src/sdk/engine/intent-detector.js, src/sdk/engine/ab-explorer.js,
src/sdk/engine/context-observer.js).

JS numbers are modelled as exact rationals (ℚ), JS objects used as
string-keyed maps as association lists, localStorage as an explicit
store value whose primitive getItem/setItem operations are fallible
(Except) and whose try/catch wrappers are the total functions
loadState/saveState, and Math.random()'s outcome as an explicit
Variant parameter.  Code that can throw a JS exception is embedded in
Except; total Lean functions correspond to JS code none of whose
reachable operations can throw.
-/

namespace IntentFlow

/-- The closed intent taxonomy (INTENTS in intent-detector.js). -/
inductive Intent : Type
  | BUY_NOW
  | COMPARE
  | USE_CASE
  | BUDGET
  | DEFAULT
deriving DecidableEq

/-- The name string of an intent, as used for object keys in the source. -/
def intentName : Intent → String
  | .BUY_NOW => "BUY_NOW"
  | .COMPARE => "COMPARE"
  | .USE_CASE => "USE_CASE"
  | .BUDGET => "BUDGET"
  | .DEFAULT => "DEFAULT"

/-- A score vector: the object literal
`{ BUY_NOW: 0, COMPARE: 0, USE_CASE: 0, BUDGET: 0, DEFAULT: 0 }`
each extractor starts from. -/
structure ScoreVector : Type where
  BUY_NOW : ℚ
  COMPARE : ℚ
  USE_CASE : ℚ
  BUDGET : ℚ
  DEFAULT : ℚ
deriving DecidableEq

def ScoreVector.zero : ScoreVector := ⟨0, 0, 0, 0, 0⟩

def ScoreVector.get (v : ScoreVector) : Intent → ℚ
  | .BUY_NOW => v.BUY_NOW
  | .COMPARE => v.COMPARE
  | .USE_CASE => v.USE_CASE
  | .BUDGET => v.BUDGET
  | .DEFAULT => v.DEFAULT

/-- `scores[intent] += w` on a score-vector object. -/
def ScoreVector.add (v : ScoreVector) (i : Intent) (w : ℚ) : ScoreVector :=
  match i with
  | .BUY_NOW => { v with BUY_NOW := v.BUY_NOW + w }
  | .COMPARE => { v with COMPARE := v.COMPARE + w }
  | .USE_CASE => { v with USE_CASE := v.USE_CASE + w }
  | .BUDGET => { v with BUDGET := v.BUDGET + w }
  | .DEFAULT => { v with DEFAULT := v.DEFAULT + w }

/-- Componentwise sum of two score vectors (the inner loop of
`aggregateScores` adding one extractor's scores into `totals`). -/
def addVec (a b : ScoreVector) : ScoreVector :=
  ⟨a.BUY_NOW + b.BUY_NOW, a.COMPARE + b.COMPARE, a.USE_CASE + b.USE_CASE,
   a.BUDGET + b.BUDGET, a.DEFAULT + b.DEFAULT⟩

/-- `Object.values(totals).reduce((a, b) => a + b, 0)`. -/
def ScoreVector.total (v : ScoreVector) : ℚ :=
  v.BUY_NOW + v.COMPARE + v.USE_CASE + v.BUDGET + v.DEFAULT

/-- One weighted evidence record pushed by an extractor.  `matched` holds
the source's optional `matchedKeyword`/`matchedPattern` field and `note`
the optional `label`/`description` field. -/
structure Signal : Type where
  type : String
  key : String
  value : String
  matched : Option String := none
  detectedIntent : Intent
  weight : ℚ
  note : Option String := none
deriving DecidableEq

/-! Query-string parsing (`parseQueryParams`).  `decodeURIComponent` is a
JS builtin that throws `URIError` on malformed percent-encodings; it is
embedded faithfully, including UTF-8 validation of escaped bytes. -/

def hexVal (c : Char) : Option ℕ :=
  if '0' ≤ c ∧ c ≤ '9' then some (c.toNat - '0'.toNat)
  else if 'a' ≤ c ∧ c ≤ 'f' then some (c.toNat - 'a'.toNat + 10)
  else if 'A' ≤ c ∧ c ≤ 'F' then some (c.toNat - 'A'.toNat + 10)
  else none

/-- A lexical token of a URI component: a literal character or one
percent-escaped byte. -/
inductive UriToken : Type
  | lit (c : Char)
  | esc (b : ℕ)
deriving DecidableEq

/-- Split a URI component into literal characters and `%XX` escapes;
a `%` not followed by two hex digits throws `URIError`. -/
def uriTokenize : List Char → Except Unit (List UriToken)
  | [] => .ok []
  | c :: rest =>
    if c = '%' then
      match rest with
      | h₁ :: h₂ :: rest₂ =>
        match hexVal h₁, hexVal h₂ with
        | some a, some b => do
          let ts ← uriTokenize rest₂
          .ok (.esc (16 * a + b) :: ts)
        | _, _ => .error ()
      | _ => .error ()
    else do
      let ts ← uriTokenize rest
      .ok (.lit c :: ts)

/-- Well-formedness of the percent-escapes of a URI component, restricted
to ASCII: every `%` is followed by two hexadecimal digits encoding a byte
below 0x80.  Such components are exactly the escape-wise safe inputs the
amended no-throw property quantifies over. -/
def asciiEscaped : List Char → Bool
  | [] => true
  | c :: rest =>
    if c = '%' then
      match rest with
      | h₁ :: h₂ :: rest₂ =>
        (match hexVal h₁, hexVal h₂ with
         | some a, some b => decide (16 * a + b < 0x80)
         | _, _ => false) && asciiEscaped rest₂
      | _ => false
    else asciiEscaped rest

/-- Every escaped byte of a token list is ASCII. -/
def tokensAscii : List UriToken → Bool
  | [] => true
  | .lit _ :: ts => tokensAscii ts
  | .esc b :: ts => decide (b < 0x80) && tokensAscii ts

/-- Is `b` a UTF-8 continuation byte (`10xxxxxx`)? -/
def utf8Cont (b : ℕ) : Bool := 0x80 ≤ b && b ≤ 0xBF

/-- Read one UTF-8 continuation byte from the front of a token list:
the next token must be an escape whose byte is `10xxxxxx`. -/
def contEsc : List UriToken → Option (ℕ × List UriToken)
  | .esc b :: ts => if utf8Cont b then some (b, ts) else none
  | _ => none

/-- Decode the escaped bytes of a tokenized URI component, enforcing the
UTF-8 validity checks of the ECMAScript `Decode` algorithm: a lead byte
determines how many continuation escapes must follow, and overlong
encodings, surrogates and out-of-range code points throw.  The fuel
argument only bounds the recursion; every step consumes at least one
token, so fuel equal to the token count (as supplied by
`uriDecodeTokens`) never runs out. -/
def uriDecodeTokensF : ℕ → List UriToken → Except Unit (List Char)
  | _, [] => .ok []
  | 0, _ :: _ => .error ()
  | fuel+1, .lit c :: ts => do
    let cs ← uriDecodeTokensF fuel ts
    .ok (c :: cs)
  | fuel+1, .esc b :: ts =>
    if b < 0x80 then do
      let cs ← uriDecodeTokensF fuel ts
      .ok (Char.ofNat b :: cs)
    else if b ≤ 0xBF then .error ()          -- lone continuation byte
    else if b ≤ 0xDF then                     -- two-byte sequence
      match contEsc ts with
      | some (b₂, ts₂) =>
        let v := (b - 0xC0) * 0x40 + (b₂ - 0x80)
        if v < 0x80 then .error () else do
          let cs ← uriDecodeTokensF fuel ts₂
          .ok (Char.ofNat v :: cs)
      | none => .error ()
    else if b ≤ 0xEF then                     -- three-byte sequence
      match contEsc ts with
      | some (b₂, ts₂) =>
        match contEsc ts₂ with
        | some (b₃, ts₃) =>
          let v := (b - 0xE0) * 0x1000 + (b₂ - 0x80) * 0x40 + (b₃ - 0x80)
          if v < 0x800 ∨ (0xD800 ≤ v ∧ v ≤ 0xDFFF) then .error () else do
            let cs ← uriDecodeTokensF fuel ts₃
            .ok (Char.ofNat v :: cs)
        | none => .error ()
      | none => .error ()
    else if b ≤ 0xF7 then                     -- four-byte sequence
      match contEsc ts with
      | some (b₂, ts₂) =>
        match contEsc ts₂ with
        | some (b₃, ts₃) =>
          match contEsc ts₃ with
          | some (b₄, ts₄) =>
            let v := (b - 0xF0) * 0x40000 + (b₂ - 0x80) * 0x1000 +
                     (b₃ - 0x80) * 0x40 + (b₄ - 0x80)
            if v < 0x10000 ∨ 0x10FFFF < v then .error () else do
              let cs ← uriDecodeTokensF fuel ts₄
              .ok (Char.ofNat v :: cs)
          | none => .error ()
        | none => .error ()
      | none => .error ()
    else .error ()                            -- lead byte ≥ 0xF8

/-- Decode a full token list (fuel = token count always suffices). -/
def uriDecodeTokens (ts : List UriToken) : Except Unit (List Char) :=
  uriDecodeTokensF ts.length ts

/-- `decodeURIComponent`: decodes every `%XX` escape, throwing `URIError`
on malformed escapes or invalid UTF-8 byte sequences. -/
def decodeURIComponent (s : String) : Except Unit String := do
  let ts ← uriTokenize s.toList
  let cs ← uriDecodeTokens ts
  .ok (String.mk cs)

/-- Parsed query parameters: a string-keyed JS object in insertion order. -/
abbrev Params := List (String × String)

/-- `str.split(sep)` for a one-character separator, on character lists
(structural embedding of the JS builtin; always returns at least one
piece, and empty pieces between adjacent separators). -/
def splitOnChar (sep : Char) : List Char → List (List Char)
  | [] => [[]]
  | c :: rest =>
    let r := splitOnChar sep rest
    if c = sep then [] :: r else (c :: r.headD []) :: r.tail

/-- `str.split(sep)` on strings. -/
def jsSplit (s : String) (sep : Char) : List String :=
  (splitOnChar sep s.toList).map String.mk

/-- `str.toLowerCase()` (ASCII, as used on the keyword tables). -/
def jsToLower (s : String) : String := String.mk (s.toList.map Char.toLower)

/-- `str.toUpperCase()` (ASCII). -/
def jsToUpper (s : String) : String := String.mk (s.toList.map Char.toUpper)

/-- Replace every dash with an underscore (the overrides' regex replace). -/
def jsReplaceDash (s : String) : String :=
  String.mk (s.toList.map (fun c => if c = '-' then '_' else c))

/-- Replace-or-append assignment `obj[k] = v` on an association list. -/
def setA {α β : Type} [DecidableEq α] : List (α × β) → α → β → List (α × β)
  | [], k, v => [(k, v)]
  | (k', v') :: rest, k, v =>
    if k = k' then (k, v) :: rest else (k', v') :: setA rest k v

/-- Property read `obj[k]` on an association list. -/
def getA {α β : Type} [DecidableEq α] : List (α × β) → α → Option β
  | [], _ => none
  | (k', v') :: rest, k => if k = k' then some v' else getA rest k

/-- JS truthiness of an optional string: `null`, `undefined` and `""` are
falsy. -/
def truthy : Option String → Option String
  | some s => if s = "" then none else some s
  | none => none

/-- Truthy read of `params[k]`. -/
def getTruthy (ps : Params) (k : String) : Option String :=
  truthy (getA ps k)

/-- `parseQueryParams` over the part of `location.search` after the `?`:
split on `&`, split each pair on `=`, percent-decode key and value
(`parts[1] || ''`), and assign into the params object. -/
def parseQueryParams (search : String) : Except Unit Params :=
  if search = "" then .ok [] else
  (jsSplit search '&').foldlM
    (fun ps pair => do
      let parts := jsSplit pair '='
      let k ← decodeURIComponent (parts.headD "")
      let v ← decodeURIComponent ((parts[1]?).getD "")
      .ok (setA ps k v))
    []

/-! The seven signal extractors. -/

/-- `str.includes(sub)`. -/
def jsIncludes (s sub : String) : Bool := decide (sub.toList <:+: s.toList)

/-- Uppercase `s`, replace every dash with an underscore, and look the
result up in the `INTENTS` table, as the `intent=`/`persona=` overrides do. -/
def toIntentName (s : String) : Option Intent :=
  match jsReplaceDash (jsToUpper s) with
  | "BUY_NOW" => some .BUY_NOW
  | "COMPARE" => some .COMPARE
  | "USE_CASE" => some .USE_CASE
  | "BUDGET" => some .BUDGET
  | "DEFAULT" => some .DEFAULT
  | _ => none

/-- QUERY_KEYWORDS in `Object.entries` order. -/
def QUERY_KEYWORDS : List (Intent × List String) :=
  [(.BUY_NOW, ["buy", "purchase", "order", "shop", "add to cart", "checkout",
               "get", "deal", "sale", "discount"]),
   (.COMPARE, ["compare", "comparison", "vs", "versus", "best", "top",
               "review", "rating", "benchmark"]),
   (.USE_CASE, ["gaming", "design", "coding", "office", "work", "creative",
                "video editing", "streaming", "programming"]),
   (.BUDGET, ["cheap", "affordable", "budget", "under", "price", "value",
              "low cost", "inexpensive", "save"])]

/-- UTM_CAMPAIGN_MAP in `Object.entries` order. -/
def UTM_CAMPAIGN_MAP : List (String × Intent) :=
  [("purchase", .BUY_NOW), ("buy", .BUY_NOW), ("sale", .BUY_NOW),
   ("promo", .BUY_NOW), ("comparison", .COMPARE), ("compare", .COMPARE),
   ("review", .COMPARE), ("best_of", .COMPARE), ("gaming", .USE_CASE),
   ("design", .USE_CASE), ("office", .USE_CASE), ("work", .USE_CASE),
   ("budget", .BUDGET), ("deals", .BUDGET), ("savings", .BUDGET),
   ("value", .BUDGET)]

structure RefCfg : Type where
  intent : Intent
  weight : ℚ
  label : String
deriving DecidableEq

/-- REFERRER_PATTERNS in `Object.entries` order. -/
def REFERRER_PATTERNS : List (String × RefCfg) :=
  [("google.com/search", ⟨.COMPARE, 0.3, "Google Search"⟩),
   ("bing.com/search", ⟨.COMPARE, 0.3, "Bing Search"⟩),
   ("youtube.com", ⟨.USE_CASE, 0.25, "YouTube"⟩),
   ("reddit.com", ⟨.COMPARE, 0.25, "Reddit"⟩),
   ("facebook.com", ⟨.DEFAULT, 0.15, "Facebook"⟩),
   ("instagram.com", ⟨.DEFAULT, 0.15, "Instagram"⟩),
   ("twitter.com", ⟨.DEFAULT, 0.15, "Twitter/X"⟩),
   ("x.com", ⟨.DEFAULT, 0.15, "Twitter/X"⟩),
   ("tiktok.com", ⟨.DEFAULT, 0.15, "TikTok"⟩),
   ("email", ⟨.BUY_NOW, 0.2, "Email Campaign"⟩),
   ("slickdeals.net", ⟨.BUDGET, 0.35, "SlickDeals"⟩),
   ("rtings.com", ⟨.COMPARE, 0.35, "Rtings"⟩),
   ("pcpartpicker.com", ⟨.COMPARE, 0.3, "PCPartPicker"⟩)]

structure BehaviorCfg : Type where
  intent : Intent
  weight : ℚ
  description : String
deriving DecidableEq

/-- The simulated-behavior lookup table in `detectFromBehavior`. -/
def behaviorMap : List (String × BehaviorCfg) :=
  [("fast_scroll", ⟨.COMPARE, 0.2, "Fast scrolling suggests comparison behavior"⟩),
   ("click_price", ⟨.BUDGET, 0.3, "Clicked on price element"⟩),
   ("click_cta", ⟨.BUY_NOW, 0.3, "Clicked primary CTA within 5 seconds"⟩),
   ("hover_specs", ⟨.COMPARE, 0.2, "Hovered over specification details"⟩),
   ("click_category", ⟨.USE_CASE, 0.25, "Clicked a use-case category"⟩)]

/-- Phases 3 to 5 of `detectFromQueryParams` (UTM campaign, UTM source and
search-query keyword matching), reached when neither override fires. -/
def qpKeywordPhase (ps : Params) : ScoreVector × List Signal :=
  let acc0 : ScoreVector × List Signal := (ScoreVector.zero, [])
  let acc1 :=
    match getTruthy ps "utm_campaign" with
    | some c =>
      let campaign := jsToLower c
      UTM_CAMPAIGN_MAP.foldl
        (fun acc kw =>
          if jsIncludes campaign kw.1 then
            (acc.1.add kw.2 0.6,
             acc.2 ++ [{ type := "utm_campaign", key := "utm_campaign", value := c,
                         matched := some kw.1, detectedIntent := kw.2, weight := 0.6 }])
          else acc)
        acc0
    | none => acc0
  let acc2 :=
    match getTruthy ps "utm_source" with
    | some src =>
      let source := jsToLower src
      if source = "email" ∨ source = "newsletter" then
        (acc1.1.add .BUY_NOW 0.3,
         acc1.2 ++ [{ type := "utm_source", key := "utm_source", value := src,
                      detectedIntent := .BUY_NOW, weight := 0.3 }])
      else acc1
    | none => acc1
  ["q", "query", "search", "keyword", "keywords"].foldl
    (fun acc key =>
      match getTruthy ps key with
      | some qv =>
        let queryText := jsToLower qv
        QUERY_KEYWORDS.foldl
          (fun acc ik =>
            ik.2.foldl
              (fun acc kw =>
                if jsIncludes queryText kw then
                  (acc.1.add ik.1 0.5,
                   acc.2 ++ [{ type := "search_query", key := key, value := qv,
                               matched := some kw, detectedIntent := ik.1, weight := 0.5 }])
                else acc)
              acc)
          acc
      | none => acc)
    acc2

/-- Signal 1: `detectFromQueryParams`.  An explicit `intent=` or
`persona=` override returns immediately with weight 1.0. -/
def detectFromQueryParams (ps : Params) : ScoreVector × List Signal :=
  match getTruthy ps "intent" with
  | some s =>
    match toIntentName s with
    | some i =>
      (ScoreVector.zero.add i 1,
       [{ type := "query_param", key := "intent", value := s,
          detectedIntent := i, weight := 1 }])
    | none => detectFromQueryParamsPersona ps
  | none => detectFromQueryParamsPersona ps
where
  detectFromQueryParamsPersona (ps : Params) : ScoreVector × List Signal :=
    match getTruthy ps "persona" with
    | some s =>
      match toIntentName s with
      | some i =>
        (ScoreVector.zero.add i 1,
         [{ type := "persona_override", key := "persona", value := s,
            detectedIntent := i, weight := 1 }])
      | none => qpKeywordPhase ps
    | none => qpKeywordPhase ps

/-- Signal 2: `detectFromReferrer` — first matching pattern only. -/
def detectFromReferrer (referrer : String) : ScoreVector × List Signal :=
  if referrer = "" then (ScoreVector.zero, []) else
  match REFERRER_PATTERNS.find? (fun p => jsIncludes (jsToLower referrer) p.1) with
  | some p =>
    (ScoreVector.zero.add p.2.intent p.2.weight,
     [{ type := "referrer", key := "document.referrer", value := referrer,
        matched := some p.1, detectedIntent := p.2.intent,
        weight := p.2.weight, note := some p.2.label }])
  | none => (ScoreVector.zero, [])

/-- Signal 3: `detectFromBehavior` — a behavior-token lookup. -/
def detectFromBehavior (ps : Params) : ScoreVector × List Signal :=
  match getTruthy ps "behavior" with
  | some b =>
    let behavior := jsToLower b
    match getA behaviorMap behavior with
    | some cfg =>
      (ScoreVector.zero.add cfg.intent cfg.weight,
       [{ type := "behavior", key := "on_page_action", value := behavior,
          detectedIntent := cfg.intent, weight := cfg.weight,
          note := some cfg.description }])
    | none => (ScoreVector.zero, [])
  | none => (ScoreVector.zero, [])

/-- Signal 4: `detectFromPersonaToggle` — the hero container's and the
script tag's `data-intentflow-persona` attributes, each of weight 1.0. -/
def detectFromPersonaToggle (heroPersona scriptPersona : Option String) :
    ScoreVector × List Signal :=
  let acc0 : ScoreVector × List Signal := (ScoreVector.zero, [])
  let acc1 :=
    match truthy heroPersona with
    | some p =>
      match toIntentName p with
      | some i =>
        (acc0.1.add i 1,
         acc0.2 ++ [{ type := "persona_toggle", key := "data-intentflow-persona",
                      value := p, detectedIntent := i, weight := 1 }])
      | none => acc0
    | none => acc0
  match truthy scriptPersona with
  | some p =>
    match toIntentName p with
    | some i =>
      (acc1.1.add i 1,
       acc1.2 ++ [{ type := "script_persona", key := "script[data-intentflow-persona]",
                    value := p, detectedIntent := i, weight := 1 }])
    | none => acc1
  | none => acc1

/-- Signal 5: `detectFromDeviceType` — always emits exactly one signal. -/
def detectFromDeviceType (isTouch : Bool) (screenWidth : ℕ) :
    ScoreVector × List Signal :=
  let cfg : String × Intent × ℚ × String :=
    if isTouch ∧ screenWidth < 768 then
      ("mobile", .COMPARE, 0.15,
       "Mobile visitors tend to research and compare before purchasing")
    else if isTouch ∧ screenWidth < 1200 then
      ("tablet", .USE_CASE, 0.1,
       "Tablet users often explore use cases and visual content")
    else
      ("desktop", .BUY_NOW, 0.15,
       "Desktop visitors show higher purchase readiness")
  (ScoreVector.zero.add cfg.2.1 cfg.2.2.1,
   [{ type := "device_type", key := "navigator.touchPoints + screen.width",
      value := cfg.1, detectedIntent := cfg.2.1, weight := cfg.2.2.1,
      note := some cfg.2.2.2 }])

/-- Signal 6: `detectFromTimeOfDay` — always emits exactly one signal. -/
def detectFromTimeOfDay (hour : ℕ) : ScoreVector × List Signal :=
  let cfg : String × Intent × ℚ × String :=
    if 6 ≤ hour ∧ hour < 9 then
      ("early_morning", .COMPARE, 0.1,
       "Early morning visitors often do pre-purchase research")
    else if 9 ≤ hour ∧ hour < 17 then
      ("business_hours", .USE_CASE, 0.12,
       "Business hours suggest work/professional use-case exploration")
    else if 17 ≤ hour ∧ hour < 21 then
      ("evening", .BUY_NOW, 0.12,
       "Evening visitors are more likely to make purchase decisions")
    else
      ("night", .BUDGET, 0.1,
       "Late-night browsing correlates with deal-seeking behavior")
  (ScoreVector.zero.add cfg.2.1 cfg.2.2.1,
   [{ type := "time_of_day", key := "local_hour",
      value := cfg.1 ++ " (hour: " ++ toString hour ++ ")",
      detectedIntent := cfg.2.1, weight := cfg.2.2.1, note := some cfg.2.2.2 }])

/-- Signal 7: `detectFromScreenSize` — always emits exactly one signal;
`window.devicePixelRatio || 1` defaults a falsy ratio to 1. -/
def detectFromScreenSize (viewportWidth : ℕ) (pixelRatio : ℚ) (screenWidth : ℕ) :
    ScoreVector × List Signal :=
  let pr := if pixelRatio = 0 then 1 else pixelRatio
  let effectiveResolution : ℚ := (screenWidth : ℚ) * pr
  let cfg : String × Intent × ℚ × String :=
    if 3840 ≤ effectiveResolution then
      ("4K+", .USE_CASE, 0.15,
       "4K+ display suggests creative professional or power user")
    else if 2560 ≤ effectiveResolution then
      ("QHD", .COMPARE, 0.1,
       "QHD display indicates tech-savvy user who compares specs")
    else if viewportWidth ≤ 480 then
      ("small", .BUDGET, 0.1,
       "Small viewport correlates with budget-conscious browsing")
    else
      ("standard", .DEFAULT, 0.05, "Standard viewport — no strong signal")
  (ScoreVector.zero.add cfg.2.1 cfg.2.2.1,
   [{ type := "screen_size", key := "viewport + devicePixelRatio",
      value := cfg.1 ++ " (" ++ toString viewportWidth ++ "px × " ++
               toString pixelRatio ++ "x = " ++ toString effectiveResolution ++
               "px effective)",
      detectedIntent := cfg.2.1, weight := cfg.2.2.1, note := some cfg.2.2.2 }])

/-- Result record of `aggregateScores`. -/
structure AggResult : Type where
  intent : Intent
  confidence : ℚ
  scores : ScoreVector
deriving DecidableEq

/-- `Math.round(x * 100) / 100` (round to two decimal places). -/
def roundTo2 (q : ℚ) : ℚ := ((round (q * 100) : ℤ) : ℚ) / 100

/-- The strict-max scan of `aggregateScores` over the four non-DEFAULT
categories in `Object.entries` order (first category reaching the running
maximum wins; `DEFAULT` is skipped). -/
def maxScan (totals : ScoreVector) : ℚ × Intent :=
  [Intent.BUY_NOW, Intent.COMPARE, Intent.USE_CASE, Intent.BUDGET].foldl
    (fun acc i => if totals.get i > acc.1 then (totals.get i, i) else acc)
    (0, Intent.DEFAULT)

/-- `aggregateScores`: sum all vectors, pick the strict maximum among the
non-DEFAULT categories, fall back to DEFAULT below the 0.1 floor, and
normalize confidence to `min(max/totalSum * 1.5, 1.0)` (or 0.5 when the
total is 0), rounded to two decimals. -/
def aggregateScores (allScores : List ScoreVector) : AggResult :=
  let totals := allScores.foldl addVec ScoreVector.zero
  let m := maxScan totals
  let winner := if m.1 < 0.1 then Intent.DEFAULT else m.2
  let maxScore := if m.1 < 0.1 then 1 else m.1
  let totalScore := totals.total
  let confidence := if totalScore > 0 then min (maxScore / totalScore * 1.5) 1 else 0.5
  { intent := winner, confidence := roundTo2 confidence, scores := totals }

/-- Result record of `detect`. -/
structure IntentResult : Type where
  intent : Intent
  confidence : ℚ
  scores : ScoreVector
  signals : List Signal
  signalCount : ℕ
  timestamp : String
deriving DecidableEq

/-- The ambient browser context read by `detect`: `location.search`
(after the `?`), `document.referrer`, the two persona DOM attributes,
and the device/time/screen facts. -/
structure Context : Type where
  search : String
  referrer : String
  heroPersona : Option String
  scriptPersona : Option String
  isTouch : Bool
  screenWidth : ℕ
  viewportWidth : ℕ
  pixelRatio : ℚ
  hour : ℕ
deriving DecidableEq

/-- `detect`: run all seven extractors, aggregate, and assemble the
intent result.  Throws whatever `parseQueryParams` throws. -/
def detect (ctx : Context) (ts : String) : Except Unit IntentResult := do
  let ps ← parseQueryParams ctx.search
  let queryResult := detectFromQueryParams ps
  let referrerResult := detectFromReferrer ctx.referrer
  let behaviorResult := detectFromBehavior ps
  let personaResult := detectFromPersonaToggle ctx.heroPersona ctx.scriptPersona
  let deviceResult := detectFromDeviceType ctx.isTouch ctx.screenWidth
  let timeResult := detectFromTimeOfDay ctx.hour
  let screenResult := detectFromScreenSize ctx.viewportWidth ctx.pixelRatio ctx.screenWidth
  let allScores := [queryResult.1, referrerResult.1, behaviorResult.1,
                    personaResult.1, deviceResult.1, timeResult.1, screenResult.1]
  let allSignals := queryResult.2 ++ referrerResult.2 ++ behaviorResult.2 ++
                    personaResult.2 ++ deviceResult.2 ++ timeResult.2 ++ screenResult.2
  let result := aggregateScores allScores
  .ok { intent := result.intent, confidence := result.confidence,
        scores := result.scores, signals := allSignals,
        signalCount := allSignals.length, timestamp := ts }

/-! Decision engine (the DecisionEngine module in ab-explorer.js). -/

/-- One entry of the template registry (`templates[key]`). -/
structure Template : Type where
  id : String
  name : String
  cssClass : String
  intents : List Intent
deriving DecidableEq

/-- The template registry document: `{templates, defaultTemplate}`,
with `templates` a string-keyed object in insertion order. -/
structure TemplateRegistry : Type where
  templates : List (String × Template)
  defaultTemplate : Option String
deriving DecidableEq

structure ImageData : Type where
  src : String
  alt : String
deriving DecidableEq

/-- One content entry of the asset registry (`content[intent]`). -/
structure Content : Type where
  headline : String
  subheadline : String
  cta_text : String
  cta_link : String
  image : Option String
  badges : List String
deriving DecidableEq

/-- The asset registry document: `{content, images, badges}`.  Badge
values are modelled as opaque strings. -/
structure AssetRegistry : Type where
  content : List (Intent × Content)
  images : List (String × ImageData)
  badges : List (String × String)
deriving DecidableEq

/-- Result of `selectTemplate`: the matched template (absent on the
registry-not-loaded fallback) and the selection reason. -/
structure TemplateResult : Type where
  template : Option Template
  reason : String
deriving DecidableEq

/-- Result of `selectContent`. -/
structure ContentResult : Type where
  headline : String
  subheadline : String
  cta_text : String
  cta_link : String
  image : Option ImageData
  imageKey : Option String
  badges : List String
  reason : String
deriving DecidableEq

/-- `selectTemplate`: first template whose `intents` contains the winning
intent; else the `defaultTemplate` entry.  When neither a match nor a
default entry exists, the source dereferences `undefined.name` and throws
a `TypeError`, embedded as `.error ()`. -/
def selectTemplate (treg : Option TemplateRegistry) (intent : Intent) :
    Except Unit TemplateResult :=
  match treg with
  | none => .ok { template := none, reason := "Fallback: registry not loaded" }
  | some reg =>
    match reg.templates.find? (fun p => p.2.intents.contains intent) with
    | some p =>
      .ok { template := some p.2,
            reason := "Template \"" ++ p.2.name ++ "\" is optimized for " ++
                      intentName intent ++ " intent." }
    | none =>
      let defaultKey := reg.defaultTemplate.getD "hero-impact"
      match getA reg.templates defaultKey with
      | some t =>
        .ok { template := some t,
              reason := "No intent-specific template found. Using default: \"" ++
                        t.name ++ "\"." }
      | none => .error ()

/-- `selectContent`: content for the winning intent, else the DEFAULT
entry; resolve image and badge keys, skipping keys without a lookup hit.
When neither entry exists the source dereferences `undefined.image` and
throws, embedded as `.error ()`. -/
def selectContent (areg : Option AssetRegistry) (intent : Intent) :
    Except Unit ContentResult :=
  match areg with
  | none =>
    .ok { headline := "Monitors Reimagined",
          subheadline := "Discover the next generation of displays.",
          cta_text := "Explore Collection →", cta_link := "#collection",
          image := none, imageKey := none, badges := [],
          reason := "Fallback: asset registry not loaded" }
  | some a =>
    let mk (c : Content) (usedFallback : Bool) : ContentResult :=
      let imageData := match c.image with
        | some key => getA a.images key
        | none => none
      let badgeData := c.badges.filterMap (fun k => getA a.badges k)
      { headline := c.headline, subheadline := c.subheadline,
        cta_text := c.cta_text, cta_link := c.cta_link,
        image := imageData, imageKey := c.image, badges := badgeData,
        reason := if usedFallback then
            "No content defined for \"" ++ intentName intent ++
            "\" intent. Using DEFAULT content."
          else
            "Content matched to \"" ++ intentName intent ++
            "\" intent from asset registry." }
    match getA a.content intent with
    | some c => .ok (mk c false)
    | none =>
      match getA a.content Intent.DEFAULT with
      | some c => .ok (mk c true)
      | none => .error ()

/-- `buildExplanation`: the three explanation sentences joined by spaces,
special-casing the empty signal list. -/
def buildExplanation (ir : IntentResult) (tr : TemplateResult)
    (cr : ContentResult) : String :=
  let part1 :=
    if ir.signals.isEmpty then "No signals detected. Using DEFAULT intent."
    else
      "Detected intent: " ++ intentName ir.intent ++ " (confidence: " ++
      toString (round (ir.confidence * 100) : ℤ) ++ "%) from " ++
      toString ir.signals.length ++ " signal(s): " ++
      String.intercalate ", "
        (ir.signals.map (fun s => s.type ++ "(" ++ s.key ++ "=\"" ++ s.value ++ "\")")) ++
      "."
  part1 ++ " " ++ tr.reason ++ " " ++ cr.reason

/-- A/B variant letter. -/
inductive Variant : Type
  | A
  | B
deriving DecidableEq

/-- The structured decision object built by `decide`.  `_abVariant` is
the field `applyVariant` adds later (absent, i.e. `none`, after `decide`). -/
structure Decision : Type where
  intent : Intent
  confidence : ℚ
  template : String
  templateName : String
  templateCssClass : String
  hero_image : String
  hero_image_alt : String
  headline : String
  subheadline : String
  cta_text : String
  cta_link : String
  badges : List String
  reason : String
  signals_used : List String
  signal_details : List Signal
  intent_scores : ScoreVector
  timestamp : String
  engine_version : String
  fallback_used : Bool
  _abVariant : Option Variant
deriving DecidableEq

/-- `decide`: select template and content for the winning intent and
assemble the full decision object.  `timestamp` is the wall-clock
reading (`new Date().toISOString()`), passed explicitly.  Exceptions
thrown by template/content selection propagate. -/
def decide (treg : Option TemplateRegistry) (areg : Option AssetRegistry)
    (ir : IntentResult) (ts : String) : Except Unit Decision :=
  match selectTemplate treg ir.intent with
  | .error e => .error e
  | .ok tr =>
    match selectContent areg ir.intent with
    | .error e => .error e
    | .ok cr =>
      .ok { intent := ir.intent,
            confidence := if ir.confidence = 0 then 0.5 else ir.confidence,
            template := match tr.template with
              | some t => t.id
              | none => "hero-impact",
            templateName := match tr.template with
              | some t => t.name
              | none => "Impact Hero",
            templateCssClass := match tr.template with
              | some t => t.cssClass
              | none => "intentflow-hero--impact",
            hero_image := match cr.image with
              | some im => im.src
              | none => "assets/hero-default.png",
            hero_image_alt := match cr.image with
              | some im => im.alt
              | none => "Premium monitor display",
            headline := cr.headline,
            subheadline := cr.subheadline,
            cta_text := cr.cta_text,
            cta_link := cr.cta_link,
            badges := cr.badges,
            reason := buildExplanation ir tr cr,
            signals_used := ir.signals.map (fun s => s.type),
            signal_details := ir.signals,
            intent_scores := ir.scores,
            timestamp := ts,
            engine_version := "1.0.0",
            fallback_used :=
              Decidable.decide (ir.intent = Intent.DEFAULT) && ir.signals.isEmpty,
            _abVariant := none }

/-! A/B Explorer. -/

/-- `MIN_SAMPLE_SIZE`: minimum impressions before declaring a winner. -/
def MIN_SAMPLE_SIZE : ℕ := 10

/-- The persisted A/B state (JSON under the `intentflow_ab` storage key).
The string keys `INTENT_VARIANT` of the impression/click counters are
modelled as `Intent × Variant` pairs. -/
structure ABState : Type where
  assignments : List (Intent × Variant)
  impressions : List ((Intent × Variant) × ℕ)
  clicks : List ((Intent × Variant) × ℕ)
  winners : List (Intent × Variant)
deriving DecidableEq

def emptyAB : ABState := ⟨[], [], [], []⟩

/-- The browser's localStorage for the two IntentFlow keys.  When
`available` is false every getItem/setItem throws (storage denied). -/
structure Store : Type where
  available : Bool
  ab : Option ABState
  abEnabled : Option String
deriving DecidableEq

/-- `localStorage.getItem(STORAGE_KEY)` (with JSON.parse folded in). -/
def getItemAB (st : Store) : Except Unit (Option ABState) :=
  if st.available then .ok st.ab else .error ()

/-- `localStorage.setItem(STORAGE_KEY, JSON.stringify(state))`. -/
def setItemAB (st : Store) (s : ABState) : Except Unit Store :=
  if st.available then .ok { st with ab := some s } else .error ()

/-- `localStorage.getItem(AB_ENABLED_KEY)`. -/
def getItemEnabled (st : Store) : Except Unit (Option String) :=
  if st.available then .ok st.abEnabled else .error ()

/-- `loadState`: try/catch around getItem; any failure or absence yields
the fresh empty state. -/
def loadState (st : Store) : ABState :=
  match getItemAB st with
  | .ok (some s) => s
  | _ => emptyAB

/-- `saveState`: try/catch around setItem; silently keeps the old store
when storage is unavailable. -/
def saveState (st : Store) (s : ABState) : Store :=
  match setItemAB st s with
  | .ok st' => st'
  | .error _ => st

/-- `assignVariant`: locked winner first, then the sticky assignment,
else a fresh 50/50 random choice (`rand` is the outcome of
`Math.random() < 0.5 ? 'A' : 'B'`), persisted. -/
def assignVariant (intent : Intent) (st : Store) (rand : Variant) :
    Variant × Store :=
  let s := loadState st
  match getA s.winners intent with
  | some w => (w, st)
  | none =>
    match getA s.assignments intent with
    | some v => (v, st)
    | none =>
      (rand, saveState st { s with assignments := setA s.assignments intent rand })

/-- The click-through rate `clicks/impressions` of a variant in a state
(0 when the variant has no impressions), as computed by `checkForWinner`. -/
def ctrOf (s : ABState) (intent : Intent) (v : Variant) : ℚ :=
  let imp := (getA s.impressions (intent, v)).getD 0
  if 0 < imp then ((getA s.clicks (intent, v)).getD 0 : ℚ) / (imp : ℚ) else 0

/-- `checkForWinner`: once total impressions for the intent reach
`MIN_SAMPLE_SIZE`, lock `ctrA >= ctrB ? 'A' : 'B'` permanently. -/
def checkForWinner (intent : Intent) (s : ABState) (st : Store) : Store :=
  if (getA s.winners intent).isSome then st else
  let impressionsA := (getA s.impressions (intent, Variant.A)).getD 0
  let impressionsB := (getA s.impressions (intent, Variant.B)).getD 0
  if impressionsA + impressionsB < MIN_SAMPLE_SIZE then st else
  let winner := if ctrOf s intent Variant.A ≥ ctrOf s intent Variant.B
    then Variant.A else Variant.B
  saveState st { s with winners := setA s.winners intent winner }

/-- `recordImpression`: bump the per-(intent,variant) impression counter,
persist, then run the winner check on the bumped state. -/
def recordImpression (intent : Intent) (variant : Variant) (st : Store) : Store :=
  let s := loadState st
  let n := ((getA s.impressions (intent, variant)).getD 0) + 1
  let s₁ := { s with impressions := setA s.impressions (intent, variant) n }
  let st₁ := saveState st s₁
  checkForWinner intent s₁ st₁

/-- `recordClick`: bump the per-(intent,variant) click counter and persist. -/
def recordClick (intent : Intent) (variant : Variant) (st : Store) : Store :=
  let s := loadState st
  let n := ((getA s.clicks (intent, variant)).getD 0) + 1
  let s₁ := { s with clicks := setA s.clicks (intent, variant) n }
  saveState st s₁

/-- `isEnabled`: the `intentflow_ab=true` URL flag, else the stored
enable flag (false when storage is unavailable, via the catch). -/
def isEnabled (urlFlag : Bool) (st : Store) : Bool :=
  if urlFlag then true else
  match getItemEnabled st with
  | .ok v => v = some "true"
  | .error _ => false

/-- Alternate (variant-B) content bundle per intent. -/
structure AltContent : Type where
  headline : String
  subheadline : String
  cta_text : String
  cta_link : String
deriving DecidableEq

/-- The `variantB` table.  It has an entry for every member of the closed
intent enumeration, so the `variantB[intent]` truthiness test in
`applyVariant` never fails for a decision produced by `decide`. -/
def variantB : Intent → AltContent
  | .BUY_NOW =>
    ⟨"Ready to Upgrade Your Setup?",
     "Top-rated 4K monitors with free next-day delivery. Limited stock available.",
     "Buy Now — Free Shipping →", "#checkout"⟩
  | .COMPARE =>
    ⟨"See How They Stack Up",
     "Interactive comparison charts, benchmark scores, and expert verdicts side by side.",
     "Start Comparing →", "#compare-tool"⟩
  | .USE_CASE =>
    ⟨"The Right Monitor for Every Task",
     "Gaming, design, coding, or streaming — find the display built for your craft.",
     "Find Your Match →", "#quiz"⟩
  | .BUDGET =>
    ⟨"Great Monitors Don\x27t Have to Break the Bank",
     "Curated picks under $200 with 4.5+ star ratings. Quality you can trust.",
     "See Top Budget Picks →", "#budget-picks"⟩
  | .DEFAULT =>
    ⟨"The Display Revolution Starts Here",
     "Ultra-sharp, ultra-fast, ultra-reliable. Experience monitors redesigned for 2026.",
     "Discover the Range →", "#range"⟩

/-- `applyVariant`: when A/B mode is enabled, assign a variant for the
decision's intent, overlay variant-B content when assigned B, tag the
decision with `_abVariant` and a reason suffix, and record one
impression.  Returns the updated decision, the updated store and the
variant letter. -/
def applyVariant (urlFlag : Bool) (d : Decision) (st : Store) (rand : Variant) :
    Decision × Store × Variant :=
  if ¬ isEnabled urlFlag st then (d, st, Variant.A) else
  let intent := d.intent
  let va := assignVariant intent st rand
  let variant := va.1
  let st₁ := va.2
  let d' :=
    if variant = Variant.B then
      let alt := variantB intent
      { d with headline := alt.headline, subheadline := alt.subheadline,
               cta_text := alt.cta_text, cta_link := alt.cta_link,
               _abVariant := some Variant.B,
               reason := d.reason ++ " [A/B Test: Variant B assigned]" }
    else
      { d with _abVariant := some Variant.A,
               reason := d.reason ++ " [A/B Test: Variant A assigned]" }
  let st₂ := recordImpression intent variant st₁
  (d', st₂, variant)

/-! Context Observer. -/

/-- `CONFIG.MIN_CONFIDENCE_SHIFT`. -/
def MIN_CONFIDENCE_SHIFT : ℚ := 0.3

/-- `CONFIG.COOLDOWN_MS` (milliseconds). -/
def COOLDOWN_MS : ℕ := 5000

/-- The observer's session state: the long-lived behavior score vector,
the last re-personalization timestamp, the pipeline's last decision
(`IntentFlow._lastDecision`, `none` before the first cycle), the current
session intent and the observed action-type log. -/
structure ObserverState : Type where
  behaviorScores : ScoreVector
  lastRePersonalizationTime : ℕ
  lastDecision : Option Intent
  currentSessionIntent : Option Intent
  observedActions : List String
deriving DecidableEq

/-- The dominant-intent scan of `checkForRePersonalization`: strict
maximum over the non-DEFAULT keys in object order, starting from
`maxScore = 0`, `dominantIntent = null`. -/
def dominantBehavior (v : ScoreVector) : ℚ × Option Intent :=
  [Intent.BUY_NOW, Intent.COMPARE, Intent.USE_CASE, Intent.BUDGET].foldl
    (fun acc i => if v.get i > acc.1 then (v.get i, some i) else acc)
    (0, none)

/-- Multiply every accumulated score by the 0.4 decay factor. -/
def decayVec (v : ScoreVector) : ScoreVector :=
  ⟨v.BUY_NOW * 0.4, v.COMPARE * 0.4, v.USE_CASE * 0.4, v.BUDGET * 0.4,
   v.DEFAULT * 0.4⟩

/-- `checkForRePersonalization` at wall-clock `now`: respect the
cooldown, find the dominant behavioral intent, and when it is strong
enough and differs from the active decision's intent, record the
timestamp, re-personalize with the dominant intent (which makes it the
pipeline's last decision) and decay the scores.  The second component
counts the `personalize` calls issued (0 or 1). -/
def checkForRePersonalization (now : ℕ) (os : ObserverState) :
    ObserverState × ℕ :=
  if now - os.lastRePersonalizationTime < COOLDOWN_MS then (os, 0) else
  let m := dominantBehavior os.behaviorScores
  match m.2 with
  | none => (os, 0)
  | some dominantIntent =>
    if m.1 < MIN_CONFIDENCE_SHIFT then (os, 0) else
    let currentIntent := (os.lastDecision).getD Intent.DEFAULT
    if dominantIntent ≠ currentIntent then
      ({ os with lastRePersonalizationTime := now,
                 lastDecision := some dominantIntent,
                 behaviorScores := decayVec os.behaviorScores,
                 currentSessionIntent := some dominantIntent }, 1)
    else (os, 0)

/-- `addBehaviorScore`: add the weighted increment for one interaction
event, log it, and run the re-personalization check. -/
def addBehaviorScore (intent : Intent) (weight : ℚ) (actionType : String)
    (now : ℕ) (os : ObserverState) : ObserverState × ℕ :=
  let os₁ := { os with behaviorScores := os.behaviorScores.add intent weight,
                       observedActions := os.observedActions ++ [actionType] }
  checkForRePersonalization now os₁

/-- Componentwise bracketing of a score vector: every component is
nonnegative and below the corresponding component of the bound vector.
Used to bound what each extractor can contribute to each intent. -/
def within (v b : ScoreVector) : Prop :=
  (0 ≤ v.BUY_NOW ∧ v.BUY_NOW ≤ b.BUY_NOW)
  ∧ (0 ≤ v.COMPARE ∧ v.COMPARE ≤ b.COMPARE)
  ∧ (0 ≤ v.USE_CASE ∧ v.USE_CASE ≤ b.USE_CASE)
  ∧ (0 ≤ v.BUDGET ∧ v.BUDGET ≤ b.BUDGET)
  ∧ (0 ≤ v.DEFAULT ∧ v.DEFAULT ≤ b.DEFAULT)

/-! Helper lemmas about the association-list object operations. -/

theorem getA_setA_self {α β : Type} [DecidableEq α] (l : List (α × β)) (k : α) (v : β) :
    getA (setA l k v) k = some v := by
  induction l with
  | nil => simp [setA, getA]
  | cons p rest ih =>
    by_cases h : k = p.1
    · simp [setA, getA, h]
    · simp only [setA, getA]
      rw [if_neg h]
      simp [getA, h, ih]

theorem getA_setA_ne {α β : Type} [DecidableEq α] (l : List (α × β)) (k k' : α) (v : β)
    (h : k' ≠ k) : getA (setA l k v) k' = getA l k' := by
  induction l with
  | nil => simp [setA, getA, h]
  | cons p rest ih =>
    by_cases hk : k = p.1
    · subst hk
      simp [setA, getA, h]
    · simp only [setA]
      rw [if_neg hk]
      by_cases hk' : k' = p.1
      · simp [getA, hk']
      · simp [getA, hk', ih]

theorem getA_mem {α β : Type} [DecidableEq α] (l : List (α × β)) (k : α) (v : β)
    (h : getA l k = some v) : (k, v) ∈ l := by
  induction l with
  | nil => simp [getA] at h
  | cons p rest ih =>
    simp only [getA] at h
    split at h
    · rename_i heq
      cases h
      cases p
      subst heq
      exact List.mem_cons_self _ _
    · right
      exact ih h

/-- Saving never changes storage availability. -/
theorem saveState_available (st : Store) (s : ABState) :
    (saveState st s).available = st.available := by
  unfold saveState setItemAB
  split
  · rename_i h
    split at h
    · cases h; rfl
    · cases h
  · rfl

/-- With storage available, a save stores exactly the given state. -/
theorem saveState_of_available (st : Store) (s : ABState) (h : st.available = true) :
    saveState st s = { st with ab := some s } := by
  unfold saveState setItemAB
  rw [if_pos h]

/-- With storage available, a load after a save reads back the saved state. -/
theorem loadState_saveState (st : Store) (s : ABState) (h : st.available = true) :
    loadState (saveState st s) = s := by
  rw [saveState_of_available st s h]
  unfold loadState getItemAB
  rw [if_pos h]

theorem loadState_of_unavailable (st : Store) (h : st.available = false) :
    loadState st = emptyAB := by
  unfold loadState getItemAB
  rw [h]
  simp

theorem saveState_of_unavailable (st : Store) (s : ABState) (h : st.available = false) :
    saveState st s = st := by
  unfold saveState setItemAB
  rw [h]
  simp

/-- C2: `assignVariant` is sticky — two consecutive calls for the same
intent on the same (working) stored state return the same variant; when
total impressions for an intent reach `MIN_SAMPLE_SIZE` with no winner
yet, `checkForWinner` locks the variant with the higher click-through
rate, ties in favor of `A`; and once a winner is stored, `assignVariant`
returns it and no later `recordImpression`, `recordClick` or
`checkForWinner` call changes it. -/
theorem assignVariant_sticky_winner_locked (st : Store) (i : Intent)
    (r₁ r₂ : Variant) (v : Variant) (hav : st.available = true) :
    ((assignVariant i (assignVariant i st r₁).2 r₂).1 = (assignVariant i st r₁).1)
    ∧
    (∀ (s : ABState) (st' : Store), st'.available = true →
      getA s.winners i = none →
      MIN_SAMPLE_SIZE ≤ (getA s.impressions (i, Variant.A)).getD 0 +
                        (getA s.impressions (i, Variant.B)).getD 0 →
      (ctrOf s i Variant.A ≥ ctrOf s i Variant.B →
        getA (loadState (checkForWinner i s st')).winners i = some Variant.A)
      ∧ (ctrOf s i Variant.B > ctrOf s i Variant.A →
        getA (loadState (checkForWinner i s st')).winners i = some Variant.B))
    ∧
    (∀ w, getA (loadState st).winners i = some w →
      (assignVariant i st r₁).1 = w
      ∧ getA (loadState (recordImpression i v st)).winners i = some w
      ∧ getA (loadState (recordClick i v st)).winners i = some w
      ∧ getA (loadState (checkForWinner i (loadState st) st)).winners i = some w)
    := by
  refine ⟨?_, ?_, ?_⟩
  · -- stickiness
    unfold assignVariant
    cases hw : getA (loadState st).winners i with
    | some w => simp [hw]
    | none =>
      cases ha : getA (loadState st).assignments i with
      | some a => simp [hw, ha]
      | none =>
        simp only [hw, ha]
        rw [loadState_saveState st _ hav]
        simp [hw, getA_setA_self]
  · -- winner lock at the sample threshold
    intro s st' hav' hw himp
    have hlt : ¬ ((getA s.impressions (i, Variant.A)).getD 0 +
        (getA s.impressions (i, Variant.B)).getD 0 < MIN_SAMPLE_SIZE) := by
      omega
    constructor
    · intro hctr
      unfold checkForWinner
      rw [hw]
      simp only [Option.isSome_none, Bool.false_eq_true, if_false]
      rw [if_neg hlt, if_pos hctr, loadState_saveState st' _ hav']
      exact getA_setA_self _ _ _
    · intro hctr
      have hctr' : ¬ (ctrOf s i Variant.A ≥ ctrOf s i Variant.B) := by
        exact not_le.mpr hctr
      unfold checkForWinner
      rw [hw]
      simp only [Option.isSome_none, Bool.false_eq_true, if_false]
      rw [if_neg hlt, if_neg hctr', loadState_saveState st' _ hav']
      exact getA_setA_self _ _ _
  · -- permanence of a stored winner
    intro w hw
    refine ⟨?_, ?_, ?_, ?_⟩
    · simp only [assignVariant]
      rw [hw]
    · simp only [recordImpression, checkForWinner]
      simp only [hw, Option.isSome_some, if_true]
      rw [loadState_saveState st _ hav]
      exact hw
    · simp only [recordClick]
      rw [loadState_saveState st _ hav]
      exact hw
    · simp only [checkForWinner]
      rw [hw]
      simp only [Option.isSome_some, if_true]
      exact hw

/-- C2 witness: a store with 6/4 impressions and 1/2 clicks for BUY_NOW
(so variant B has the higher CTR), exercising stickiness, the lock rule
and permanence on concrete data. -/
theorem assignVariant_sticky_winner_locked_witness :
    ((assignVariant Intent.BUY_NOW
        (assignVariant Intent.BUY_NOW
          ⟨true, some ⟨[], [((Intent.BUY_NOW, Variant.A), 6), ((Intent.BUY_NOW, Variant.B), 4)],
                       [((Intent.BUY_NOW, Variant.A), 1), ((Intent.BUY_NOW, Variant.B), 2)], []⟩,
         none⟩ Variant.A).2 Variant.B).1 =
      (assignVariant Intent.BUY_NOW
        ⟨true, some ⟨[], [((Intent.BUY_NOW, Variant.A), 6), ((Intent.BUY_NOW, Variant.B), 4)],
                     [((Intent.BUY_NOW, Variant.A), 1), ((Intent.BUY_NOW, Variant.B), 2)], []⟩,
         none⟩ Variant.A).1)
    ∧ getA (loadState (checkForWinner Intent.BUY_NOW
        ⟨[], [((Intent.BUY_NOW, Variant.A), 6), ((Intent.BUY_NOW, Variant.B), 4)],
         [((Intent.BUY_NOW, Variant.A), 1), ((Intent.BUY_NOW, Variant.B), 2)], []⟩
        ⟨true, some ⟨[], [((Intent.BUY_NOW, Variant.A), 6), ((Intent.BUY_NOW, Variant.B), 4)],
                     [((Intent.BUY_NOW, Variant.A), 1), ((Intent.BUY_NOW, Variant.B), 2)], []⟩,
         none⟩)).winners Intent.BUY_NOW = some Variant.B
    ∧ (assignVariant Intent.COMPARE
        ⟨true, some ⟨[], [], [], [(Intent.COMPARE, Variant.B)]⟩, none⟩ Variant.A).1 =
        Variant.B := by
  have h := assignVariant_sticky_winner_locked
    ⟨true, some ⟨[], [((Intent.BUY_NOW, Variant.A), 6), ((Intent.BUY_NOW, Variant.B), 4)],
                 [((Intent.BUY_NOW, Variant.A), 1), ((Intent.BUY_NOW, Variant.B), 2)], []⟩,
     none⟩ Intent.BUY_NOW Variant.A Variant.B Variant.A rfl
  have h' := assignVariant_sticky_winner_locked
    ⟨true, some ⟨[], [], [], [(Intent.COMPARE, Variant.B)]⟩, none⟩
    Intent.COMPARE Variant.A Variant.B Variant.A rfl
  refine ⟨h.1, ?_, ?_⟩
  · refine (h.2.1 _ _ rfl (by decide) (by decide)).2 ?_
    show ctrOf _ _ _ > ctrOf _ _ _
    have h1 : (if Variant.B = Variant.A then some 6 else some 4) = some 4 := by decide
    have h2 : (if Variant.B = Variant.A then some 1 else some 2) = some 2 := by decide
    norm_num [ctrOf, getA, Option.getD, h1, h2]
  · exact (h'.2.2 Variant.B (by decide)).1

/-- C7: when the persistent store is unavailable, none of the A/B entry
points propagates an exception (each is a total function of the
explicit store, with every fallible getItem/setItem wrapped by the
loadState/saveState catches), `assignVariant` degrades to returning the
fresh random draw on every call with the store unchanged — no memory of
prior assignments and no winner lock regardless of the stored content —
and `recordImpression`, `recordClick` and `applyVariant` leave the store
unchanged. -/
theorem storage_unavailable_degrades (st : Store) (h : st.available = false)
    (i : Intent) (r : Variant) (v : Variant) (d : Decision) (urlFlag : Bool) :
    assignVariant i st r = (r, st)
    ∧ recordImpression i v st = st
    ∧ recordClick i v st = st
    ∧ (applyVariant urlFlag d st r).2.1 = st := by
  have hload := loadState_of_unavailable st h
  have hassign : ∀ (j : Intent) (rv : Variant), assignVariant j st rv = (rv, st) := by
    intro j rv
    simp only [assignVariant]
    rw [hload]
    simp only [emptyAB, getA]
    rw [saveState_of_unavailable _ _ h]
  have himp : ∀ (j : Intent) (rv : Variant), recordImpression j rv st = st := by
    intro j rv
    simp only [recordImpression, checkForWinner]
    rw [hload]
    rw [saveState_of_unavailable _ _ h]
    simp only [emptyAB, getA, Option.isSome_none, Bool.false_eq_true, if_false]
    rw [if_pos]
    have h1 : getA (setA ([] : List ((Intent × Variant) × ℕ)) (j, rv) 1) (j, Variant.A) =
        (if (j, Variant.A) = (j, rv) then some 1 else none) := by
      cases rv <;> simp [setA, getA]
    have h2 : getA (setA ([] : List ((Intent × Variant) × ℕ)) (j, rv) 1) (j, Variant.B) =
        (if (j, Variant.B) = (j, rv) then some 1 else none) := by
      cases rv <;> simp [setA, getA]
    simp only [Option.getD, h1, h2]
    cases rv <;> simp [MIN_SAMPLE_SIZE]
  refine ⟨hassign i r, himp i v, ?_, ?_⟩
  · simp only [recordClick]
    rw [hload]
    rw [saveState_of_unavailable _ _ h]
  · simp only [applyVariant]
    by_cases he : isEnabled urlFlag st = true
    · rw [if_neg (by simp [he])]
      simp only [hassign d.intent r, himp d.intent r]
    · rw [if_pos (by simpa using he)]

/-- C7 witness: a rich store (with assignments, counters and a locked
winner) whose storage is denied behaves as a memoryless fresh draw. -/
theorem storage_unavailable_degrades_witness :
    assignVariant Intent.BUY_NOW
      ⟨false, some ⟨[(Intent.BUY_NOW, Variant.A)], [((Intent.BUY_NOW, Variant.A), 20)],
                    [((Intent.BUY_NOW, Variant.A), 5)], [(Intent.BUY_NOW, Variant.A)]⟩,
       some "true"⟩ Variant.B =
      (Variant.B,
       ⟨false, some ⟨[(Intent.BUY_NOW, Variant.A)], [((Intent.BUY_NOW, Variant.A), 20)],
                     [((Intent.BUY_NOW, Variant.A), 5)], [(Intent.BUY_NOW, Variant.A)]⟩,
        some "true"⟩)
    ∧ recordImpression Intent.BUY_NOW Variant.B
        ⟨false, some ⟨[(Intent.BUY_NOW, Variant.A)], [((Intent.BUY_NOW, Variant.A), 20)],
                      [((Intent.BUY_NOW, Variant.A), 5)], [(Intent.BUY_NOW, Variant.A)]⟩,
         some "true"⟩ =
        ⟨false, some ⟨[(Intent.BUY_NOW, Variant.A)], [((Intent.BUY_NOW, Variant.A), 20)],
                      [((Intent.BUY_NOW, Variant.A), 5)], [(Intent.BUY_NOW, Variant.A)]⟩,
         some "true"⟩ := by
  have h := storage_unavailable_degrades
    ⟨false, some ⟨[(Intent.BUY_NOW, Variant.A)], [((Intent.BUY_NOW, Variant.A), 20)],
                  [((Intent.BUY_NOW, Variant.A), 5)], [(Intent.BUY_NOW, Variant.A)]⟩,
     some "true"⟩ rfl Intent.BUY_NOW Variant.B Variant.B
    { intent := Intent.BUY_NOW, confidence := 1, template := "t", templateName := "t",
      templateCssClass := "c", hero_image := "h", hero_image_alt := "a",
      headline := "h", subheadline := "s", cta_text := "c", cta_link := "l",
      badges := [], reason := "r", signals_used := [], signal_details := [],
      intent_scores := ScoreVector.zero, timestamp := "t", engine_version := "1.0.0",
      fallback_used := false, _abVariant := none } true
  exact ⟨h.1, h.2.1⟩

/-- Folding componentwise addition over all-zero vectors yields zero. -/
theorem foldl_addVec_zeros (vs : List ScoreVector)
    (h : ∀ v ∈ vs, v = ScoreVector.zero) :
    vs.foldl addVec ScoreVector.zero = ScoreVector.zero := by
  induction vs with
  | nil => rfl
  | cons v rest ih =>
    have hv := h v (by simp)
    rw [List.foldl_cons, hv]
    have hz : addVec ScoreVector.zero ScoreVector.zero = ScoreVector.zero := by
      simp [addVec, ScoreVector.zero]
    rw [hz]
    exact ih (fun u hu => h u (by simp [hu]))

/-- Evaluation of `aggregateScores` on all-zero inputs: the strict-max
scan leaves (0, DEFAULT), the floor branch forces DEFAULT with
`maxScore = 1.0`, but the zero total hits the `: 0.5` confidence branch. -/
theorem aggregateScores_all_zero (vs : List ScoreVector)
    (h : ∀ v ∈ vs, v = ScoreVector.zero) :
    aggregateScores vs =
      { intent := Intent.DEFAULT, confidence := 1/2, scores := ScoreVector.zero } := by
  have htot : List.foldl addVec ScoreVector.zero vs = ScoreVector.zero :=
    foldl_addVec_zeros vs h
  have hms : maxScan ScoreVector.zero = (0, Intent.DEFAULT) := by
    simp [maxScan, ScoreVector.get, ScoreVector.zero]
  simp only [aggregateScores, htot, hms]
  norm_num [ScoreVector.total, ScoreVector.zero, roundTo2, round_eq]

/-- C1 counterexample: on all-zero score vectors `aggregateScores`
reports confidence 0.5 (the `totalScore > 0 ? ... : 0.5` fallback), not
the 1.0 the claim states. -/
theorem aggregate_zero_confidence_counterexample :
    (aggregateScores (List.replicate 7 ScoreVector.zero)).intent = Intent.DEFAULT
    ∧ (aggregateScores (List.replicate 7 ScoreVector.zero)).confidence = 1/2
    ∧ ¬ ((aggregateScores (List.replicate 7 ScoreVector.zero)).confidence = 1) := by
  have h := aggregateScores_all_zero (List.replicate 7 ScoreVector.zero)
    (fun v hv => List.eq_of_mem_replicate hv)
  rw [h]
  norm_num

/-- C1 (amended): for an input of zero signals (every extractor an
all-zero vector), `aggregateScores` returns intent DEFAULT with
confidence 0.5 — not 1.0, because the forced `maxScore = 1.0` is divided
by the zero total, hitting the `: 0.5` branch — and `decide` on that
result sets `fallback_used = true`. -/
theorem aggregate_zero_signals (vs : List ScoreVector)
    (h : ∀ v ∈ vs, v = ScoreVector.zero)
    (treg : Option TemplateRegistry) (areg : Option AssetRegistry) (ts : String) :
    aggregateScores vs =
      { intent := Intent.DEFAULT, confidence := 1/2, scores := ScoreVector.zero }
    ∧ (∀ d, decide treg areg
        { intent := Intent.DEFAULT, confidence := 1/2, scores := ScoreVector.zero,
          signals := [], signalCount := 0, timestamp := ts } ts = .ok d →
        d.fallback_used = true) := by
  constructor
  · exact aggregateScores_all_zero vs h
  · intro d hd
    unfold decide at hd
    cases ht : selectTemplate treg Intent.DEFAULT <;> rw [ht] at hd
    · cases hd
    · cases hc : selectContent areg Intent.DEFAULT <;> rw [hc] at hd
      · cases hd
      · cases hd
        rfl

/-- C1 witness: seven all-zero extractor vectors and unloaded registries. -/
theorem aggregate_zero_signals_witness :
    aggregateScores (List.replicate 7 ScoreVector.zero) =
      { intent := Intent.DEFAULT, confidence := 1/2, scores := ScoreVector.zero }
    ∧ (decide none none
        { intent := Intent.DEFAULT, confidence := 1/2, scores := ScoreVector.zero,
          signals := [], signalCount := 0, timestamp := "t" } "t").map
        (fun d => d.fallback_used) = .ok true := by
  have h := aggregate_zero_signals (List.replicate 7 ScoreVector.zero)
    (fun v hv => List.eq_of_mem_replicate hv) none none "t"
  refine ⟨h.1, ?_⟩
  obtain ⟨d, hd⟩ : ∃ d, decide none none
      { intent := Intent.DEFAULT, confidence := 1/2, scores := ScoreVector.zero,
        signals := [], signalCount := 0, timestamp := "t" } "t" = .ok d := ⟨_, rfl⟩
  rw [hd]
  simp only [Except.map]
  rw [h.2 d hd]

/-- C4: `decide` sets `fallback_used` to true exactly when the decided
intent is DEFAULT and the signal list is empty; a decision reaching
DEFAULT via the low-score floor with a non-empty signal list has
`fallback_used = false`. -/
theorem fallback_used_iff (treg : Option TemplateRegistry)
    (areg : Option AssetRegistry) (ir : IntentResult) (ts : String) (d : Decision)
    (h : decide treg areg ir ts = .ok d) :
    d.intent = ir.intent
    ∧ (d.fallback_used = true ↔ (ir.intent = Intent.DEFAULT ∧ ir.signals = [])) := by
  unfold decide at h
  cases ht : selectTemplate treg ir.intent <;> rw [ht] at h
  · cases h
  · cases hc : selectContent areg ir.intent <;> rw [hc] at h
    · cases h
    · cases h
      refine ⟨rfl, ?_⟩
      simp [Bool.and_eq_true, decide_eq_true_eq, List.isEmpty_iff]

/-- C4 witness: a DEFAULT decision carrying one (below-floor) signal is
not marked as fallback-used. -/
theorem fallback_used_iff_witness :
    (decide none none
      { intent := Intent.DEFAULT, confidence := 1, scores := ScoreVector.zero,
        signals := [{ type := "screen_size", key := "viewport + devicePixelRatio",
                      value := "standard", detectedIntent := Intent.DEFAULT,
                      weight := 0.05 }],
        signalCount := 1, timestamp := "t" } "t").map (fun d => d.fallback_used)
    = .ok false := by
  obtain ⟨d, hd⟩ : ∃ d, decide none none
      { intent := Intent.DEFAULT, confidence := 1, scores := ScoreVector.zero,
        signals := [{ type := "screen_size", key := "viewport + devicePixelRatio",
                      value := "standard", detectedIntent := Intent.DEFAULT,
                      weight := 0.05 }],
        signalCount := 1, timestamp := "t" } "t" = .ok d := ⟨_, rfl⟩
  have h := fallback_used_iff none none _ "t" d hd
  rw [hd]
  simp only [Except.map]
  have hf : d.fallback_used = false := by
    rcases Bool.eq_false_or_eq_true d.fallback_used with hb | hb
    · exact absurd ((h.2.mp hb).2) (by simp)
    · exact hb
  rw [hf]

/-- C6: two `decide` calls with the same intent result and the same
loaded registries agree on every field except the timestamp. -/
theorem decide_idempotent_mod_timestamp (treg : Option TemplateRegistry)
    (areg : Option AssetRegistry) (ir : IntentResult) (ts₁ ts₂ : String)
    (d₁ d₂ : Decision)
    (h₁ : decide treg areg ir ts₁ = .ok d₁)
    (h₂ : decide treg areg ir ts₂ = .ok d₂) :
    d₂ = { d₁ with timestamp := ts₂ } := by
  unfold decide at h₁ h₂
  cases ht : selectTemplate treg ir.intent <;> rw [ht] at h₁ h₂
  · cases h₁
  · cases hc : selectContent areg ir.intent <;> rw [hc] at h₁ h₂
    · cases h₁
    · cases h₁
      cases h₂
      rfl

/-- C6 witness: two concrete calls at different timestamps. -/
theorem decide_idempotent_mod_timestamp_witness :
    (decide none none
      { intent := Intent.COMPARE, confidence := 0.8, scores := ScoreVector.zero,
        signals := [], signalCount := 0, timestamp := "t0" } "t2")
    = (decide none none
      { intent := Intent.COMPARE, confidence := 0.8, scores := ScoreVector.zero,
        signals := [], signalCount := 0, timestamp := "t0" } "t1").map
      (fun d => { d with timestamp := "t2" }) := by
  obtain ⟨d₁, hd₁⟩ : ∃ d, decide none none
      { intent := Intent.COMPARE, confidence := 0.8, scores := ScoreVector.zero,
        signals := [], signalCount := 0, timestamp := "t0" } "t1" = .ok d := ⟨_, rfl⟩
  obtain ⟨d₂, hd₂⟩ : ∃ d, decide none none
      { intent := Intent.COMPARE, confidence := 0.8, scores := ScoreVector.zero,
        signals := [], signalCount := 0, timestamp := "t0" } "t2" = .ok d := ⟨_, rfl⟩
  rw [hd₁, hd₂]
  simp only [Except.map]
  rw [decide_idempotent_mod_timestamp none none _ "t1" "t2" d₁ d₂ hd₁ hd₂]

/-- C9: with the template registry loaded, when no template's intents
list contains the winning intent and the templates map has no entry
under the registry's default-template key, `selectTemplate` dereferences
an undefined value and throws (TypeError on `bestMatch.name`), and
`decide` propagates the exception instead of returning a fallback. -/
theorem selectTemplate_default_missing_throws (reg : TemplateRegistry)
    (areg : Option AssetRegistry) (ir : IntentResult) (ts : String)
    (hnm : ∀ p ∈ reg.templates, ir.intent ∉ p.2.intents)
    (hnd : getA reg.templates (reg.defaultTemplate.getD "hero-impact") = none) :
    selectTemplate (some reg) ir.intent = .error ()
    ∧ decide (some reg) areg ir ts = .error () := by
  have hfind : reg.templates.find? (fun p => p.2.intents.contains ir.intent) = none := by
    rw [List.find?_eq_none]
    intro p hp
    simpa using hnm p hp
  have hsel : selectTemplate (some reg) ir.intent = .error () := by
    simp only [selectTemplate, hfind, hnd]
  refine ⟨hsel, ?_⟩
  unfold decide
  rw [hsel]

/-- C9 witness: a registry whose only template serves BUY_NOW and whose
default-template key has no entry, queried for COMPARE. -/
theorem selectTemplate_default_missing_throws_witness :
    selectTemplate
      (some ⟨[("hero-x", ⟨"hero-x", "X Hero", "cx", [Intent.BUY_NOW]⟩)], some "missing"⟩)
      Intent.COMPARE = .error ()
    ∧ decide
      (some ⟨[("hero-x", ⟨"hero-x", "X Hero", "cx", [Intent.BUY_NOW]⟩)], some "missing"⟩)
      none
      { intent := Intent.COMPARE, confidence := 1, scores := ScoreVector.zero,
        signals := [], signalCount := 0, timestamp := "t" } "t" = .error () :=
  selectTemplate_default_missing_throws
    ⟨[("hero-x", ⟨"hero-x", "X Hero", "cx", [Intent.BUY_NOW]⟩)], some "missing"⟩
    none
    { intent := Intent.COMPARE, confidence := 1, scores := ScoreVector.zero,
      signals := [], signalCount := 0, timestamp := "t" } "t"
    (by decide) (by decide)

/-! Context-observer lemmas. -/

/-- A dominant intent returned by the strict-max scan carries its own
score and is never DEFAULT. -/
theorem dominantBehavior_some (v : ScoreVector) (m : ℚ) (j : Intent)
    (h : dominantBehavior v = (m, some j)) :
    m = v.get j ∧ j ≠ Intent.DEFAULT := by
  simp only [dominantBehavior, List.foldl] at h
  split_ifs at h <;>
    simp only [Prod.mk.injEq, Option.some.injEq, reduceCtorEq, and_false,
      false_and] at h <;>
    obtain ⟨h1, h2⟩ := h <;> subst h2 <;> subst h1 <;>
    exact ⟨rfl, by decide⟩

/-- Inside the cooldown window the check does nothing. -/
theorem check_cooldown (now : ℕ) (os : ObserverState)
    (h : now - os.lastRePersonalizationTime < COOLDOWN_MS) :
    checkForRePersonalization now os = (os, 0) := by
  simp only [checkForRePersonalization]
  rw [if_pos h]

/-- When every non-DEFAULT accumulated score is below the shift
threshold, the check never triggers. -/
theorem check_no_trigger_of_small (now : ℕ) (os : ObserverState)
    (hsmall : ∀ j, j ≠ Intent.DEFAULT →
      os.behaviorScores.get j < MIN_CONFIDENCE_SHIFT) :
    checkForRePersonalization now os = (os, 0) := by
  simp only [checkForRePersonalization]
  by_cases hcd : now - os.lastRePersonalizationTime < COOLDOWN_MS
  · rw [if_pos hcd]
  · rw [if_neg hcd]
    cases hm : (dominantBehavior os.behaviorScores).2 with
    | none => simp
    | some j =>
      have hm' : dominantBehavior os.behaviorScores =
          ((dominantBehavior os.behaviorScores).1, some j) := by
        rw [← hm]
      obtain ⟨hmv, hj⟩ := dominantBehavior_some _ _ j hm'
      simp only
      rw [if_pos (by rw [hmv]; exact hsmall j hj)]

/-- A qualifying check — strong dominant intent differing from the
active decision, outside the cooldown — triggers exactly one
re-personalization, records the timestamp and decays the scores. -/
theorem check_trigger (now : ℕ) (os : ObserverState) (m : ℚ) (j : Intent)
    (hm : dominantBehavior os.behaviorScores = (m, some j))
    (hbig : MIN_CONFIDENCE_SHIFT ≤ m)
    (hdiff : j ≠ os.lastDecision.getD Intent.DEFAULT)
    (hcool : os.lastRePersonalizationTime + COOLDOWN_MS ≤ now) :
    checkForRePersonalization now os =
      ({ os with lastRePersonalizationTime := now,
                 lastDecision := some j,
                 behaviorScores := decayVec os.behaviorScores,
                 currentSessionIntent := some j }, 1) := by
  simp only [checkForRePersonalization]
  rw [if_neg (by omega)]
  rw [hm]
  simp only
  rw [if_neg (by exact not_lt.mpr hbig), if_pos hdiff]

/-- Every check either leaves the state unchanged with no trigger, or
triggers once and stamps the current time. -/
theorem check_count_cases (now : ℕ) (os : ObserverState) :
    checkForRePersonalization now os = (os, 0)
    ∨ ((checkForRePersonalization now os).1.lastRePersonalizationTime = now
       ∧ (checkForRePersonalization now os).2 = 1) := by
  simp only [checkForRePersonalization]
  by_cases hcd : now - os.lastRePersonalizationTime < COOLDOWN_MS
  · left
    rw [if_pos hcd]
  · rw [if_neg hcd]
    cases hm : (dominantBehavior os.behaviorScores).2 with
    | none => left; simp
    | some j =>
      simp only
      by_cases hsm : (dominantBehavior os.behaviorScores).1 < MIN_CONFIDENCE_SHIFT
      · left
        rw [if_pos hsm]
      · rw [if_neg hsm]
        by_cases hne : j ≠ os.lastDecision.getD Intent.DEFAULT
        · right
          rw [if_pos hne]
          exact ⟨rfl, rfl⟩
        · left
          rw [if_neg hne]

/-- C3: a behavioral increment after which every non-DEFAULT accumulated
score is below `MIN_CONFIDENCE_SHIFT` issues no re-personalization; an
increment after which the dominant non-DEFAULT score is at least the
threshold, its intent differs from the active decision's intent, and the
cooldown has elapsed issues exactly one re-personalization and records
the trigger timestamp; and any increment within `COOLDOWN_MS` of a
trigger issues none. -/
theorem observer_threshold_cooldown (os : ObserverState) (i : Intent) (w : ℚ)
    (a : String) (now : ℕ) :
    ((∀ j, j ≠ Intent.DEFAULT →
        (os.behaviorScores.add i w).get j < MIN_CONFIDENCE_SHIFT) →
      (addBehaviorScore i w a now os).2 = 0)
    ∧ (∀ m j, dominantBehavior (os.behaviorScores.add i w) = (m, some j) →
        MIN_CONFIDENCE_SHIFT ≤ m →
        j ≠ os.lastDecision.getD Intent.DEFAULT →
        os.lastRePersonalizationTime + COOLDOWN_MS ≤ now →
        (addBehaviorScore i w a now os).2 = 1
        ∧ (addBehaviorScore i w a now os).1.lastRePersonalizationTime = now)
    ∧ (∀ (i₂ : Intent) (w₂ : ℚ) (a₂ : String) (t₂ : ℕ),
        (addBehaviorScore i w a now os).2 = 1 →
        t₂ - now < COOLDOWN_MS →
        (addBehaviorScore i₂ w₂ a₂ t₂ (addBehaviorScore i w a now os).1).2 = 0) := by
  refine ⟨?_, ?_, ?_⟩
  · intro hsmall
    simp only [addBehaviorScore]
    rw [check_no_trigger_of_small now _ (by simpa using hsmall)]
  · intro m j hm hbig hdiff hcool
    simp only [addBehaviorScore]
    rw [check_trigger now _ m j (by simpa using hm) hbig (by simpa using hdiff)
        (by simpa using hcool)]
    exact ⟨rfl, rfl⟩
  · intro i₂ w₂ a₂ t₂ h1 hwin
    simp only [addBehaviorScore] at h1 ⊢
    rcases check_count_cases now
        { os with behaviorScores := os.behaviorScores.add i w,
                  observedActions := os.observedActions ++ [a] } with hc | hc
    · rw [hc] at h1
      cases h1
    · rw [check_cooldown t₂ _ (by simpa [hc.1] using hwin)]

/-- C3 witness: from a BUY_NOW decision at time 0, a COMPARE increment of
0.35 at t=6000 triggers exactly once and stamps the time; a further
increment at t=8000 (inside the 5000 ms window) is suppressed; and a
weak 0.05 increment never triggers. -/
theorem observer_threshold_cooldown_witness :
    (addBehaviorScore Intent.COMPARE 0.35 "click_specs" 6000
      ⟨ScoreVector.zero, 0, some Intent.BUY_NOW, none, []⟩).2 = 1
    ∧ (addBehaviorScore Intent.COMPARE 0.35 "click_specs" 6000
      ⟨ScoreVector.zero, 0, some Intent.BUY_NOW, none, []⟩).1.lastRePersonalizationTime
        = 6000
    ∧ (addBehaviorScore Intent.COMPARE 0.05 "fast_scroll" 8000
        (addBehaviorScore Intent.COMPARE 0.35 "click_specs" 6000
          ⟨ScoreVector.zero, 0, some Intent.BUY_NOW, none, []⟩).1).2 = 0
    ∧ (addBehaviorScore Intent.COMPARE 0.05 "fast_scroll" 6000
        ⟨ScoreVector.zero, 0, some Intent.BUY_NOW, none, []⟩).2 = 0 := by
  have h := observer_threshold_cooldown
    ⟨ScoreVector.zero, 0, some Intent.BUY_NOW, none, []⟩ Intent.COMPARE 0.35
    "click_specs" 6000
  have hdom : dominantBehavior (ScoreVector.zero.add Intent.COMPARE 0.35) =
      (0.35, some Intent.COMPARE) := by
    norm_num [dominantBehavior, ScoreVector.add, ScoreVector.zero, ScoreVector.get]
  have hb := h.2.1 0.35 Intent.COMPARE hdom (by norm_num [MIN_CONFIDENCE_SHIFT])
    (by decide) (by norm_num [COOLDOWN_MS])
  have h' := observer_threshold_cooldown
    ⟨ScoreVector.zero, 0, some Intent.BUY_NOW, none, []⟩ Intent.COMPARE 0.05
    "fast_scroll" 6000
  refine ⟨hb.1, hb.2,
    h.2.2 Intent.COMPARE 0.05 "fast_scroll" 8000 hb.1 (by norm_num [COOLDOWN_MS]), ?_⟩
  refine h'.1 ?_
  intro j hj
  cases j <;> norm_num [ScoreVector.add, ScoreVector.zero, ScoreVector.get,
    MIN_CONFIDENCE_SHIFT]

/-! Frame lemmas for `applyVariant`. -/

/-- `assignVariant` touches at most the assignments map: availability,
impressions, clicks and winners of the loaded state are preserved. -/
theorem assignVariant_preserves (i : Intent) (st : Store) (r : Variant)
    (hav : st.available = true) :
    (assignVariant i st r).2.available = true
    ∧ (loadState (assignVariant i st r).2).impressions = (loadState st).impressions
    ∧ (loadState (assignVariant i st r).2).clicks = (loadState st).clicks
    ∧ (loadState (assignVariant i st r).2).winners = (loadState st).winners := by
  simp only [assignVariant]
  cases hw : getA (loadState st).winners i with
  | some w => simp [hw, hav]
  | none =>
    cases ha : getA (loadState st).assignments i with
    | some v => simp [hw, ha, hav]
    | none =>
      simp only [hw, ha]
      rw [saveState_available, loadState_saveState st _ hav]
      exact ⟨hav, rfl, rfl, rfl⟩

/-- `recordImpression` bumps exactly the one impression counter and
leaves the click counters unchanged (the winner check may add a winner
entry, but never touches the counters). -/
theorem recordImpression_effect (i : Intent) (v : Variant) (st : Store)
    (hav : st.available = true) :
    (loadState (recordImpression i v st)).impressions =
      setA (loadState st).impressions (i, v)
        (((getA (loadState st).impressions (i, v)).getD 0) + 1)
    ∧ (loadState (recordImpression i v st)).clicks = (loadState st).clicks := by
  simp only [recordImpression, checkForWinner]
  by_cases hw : (getA (loadState st).winners i).isSome = true
  · simp only [hw, if_true]
    rw [loadState_saveState st _ hav]
    exact ⟨rfl, rfl⟩
  · simp only [hw, Bool.false_eq_true, if_false]
    split
    · rw [loadState_saveState st _ hav]
      exact ⟨rfl, rfl⟩
    · rw [loadState_saveState _ _ (by rw [saveState_available]; exact hav)]
      exact ⟨rfl, rfl⟩

/-- C10: with A/B exploration enabled and variant A assigned,
`applyVariant` changes only the `_abVariant` field and appends the
variant suffix to `reason` — headline, subheadline, CTA and every other
decision field are untouched — and exactly one impression is recorded
for the assigned variant. -/
theorem applyVariant_frame (urlFlag : Bool) (d : Decision) (st : Store)
    (r : Variant) (hen : isEnabled urlFlag st = true)
    (hav : st.available = true)
    (hA : (assignVariant d.intent st r).1 = Variant.A) :
    (applyVariant urlFlag d st r).1 =
      { d with _abVariant := some Variant.A,
               reason := d.reason ++ " [A/B Test: Variant A assigned]" }
    ∧ (applyVariant urlFlag d st r).2.2 = Variant.A
    ∧ (getA (loadState (applyVariant urlFlag d st r).2.1).impressions
        (d.intent, Variant.A)).getD 0 =
      ((getA (loadState st).impressions (d.intent, Variant.A)).getD 0) + 1
    ∧ (∀ k, k ≠ (d.intent, Variant.A) →
        getA (loadState (applyVariant urlFlag d st r).2.1).impressions k =
        getA (loadState st).impressions k)
    ∧ (loadState (applyVariant urlFlag d st r).2.1).clicks =
        (loadState st).clicks := by
  have hpres := assignVariant_preserves d.intent st r hav
  have heff := recordImpression_effect d.intent Variant.A
    (assignVariant d.intent st r).2 hpres.1
  have happ : applyVariant urlFlag d st r =
      ({ d with _abVariant := some Variant.A,
                reason := d.reason ++ " [A/B Test: Variant A assigned]" },
       recordImpression d.intent Variant.A (assignVariant d.intent st r).2,
       Variant.A) := by
    simp only [applyVariant, hen, not_true, if_false, hA, reduceCtorEq,
      Bool.false_eq_true, ite_false]
  rw [happ]
  refine ⟨rfl, rfl, ?_, ?_, ?_⟩
  · rw [heff.1, hpres.2.1, getA_setA_self]
    rfl
  · intro k hk
    rw [heff.1, hpres.2.1, getA_setA_ne _ _ _ _ hk]
  · rw [heff.2, hpres.2.2.1]

/-- C10 witness: a fresh store, enabled exploration and a random draw of
A on a COMPARE decision. -/
theorem applyVariant_frame_witness :
    (applyVariant true
      { intent := Intent.COMPARE, confidence := 1, template := "t",
        templateName := "T", templateCssClass := "c", hero_image := "i",
        hero_image_alt := "a", headline := "H", subheadline := "S",
        cta_text := "C", cta_link := "L", badges := [], reason := "R",
        signals_used := [], signal_details := [],
        intent_scores := ScoreVector.zero, timestamp := "ts",
        engine_version := "1.0.0", fallback_used := false, _abVariant := none }
      ⟨true, none, none⟩ Variant.A).1 =
      { intent := Intent.COMPARE, confidence := 1, template := "t",
        templateName := "T", templateCssClass := "c", hero_image := "i",
        hero_image_alt := "a", headline := "H", subheadline := "S",
        cta_text := "C", cta_link := "L", badges := [],
        reason := "R [A/B Test: Variant A assigned]",
        signals_used := [], signal_details := [],
        intent_scores := ScoreVector.zero, timestamp := "ts",
        engine_version := "1.0.0", fallback_used := false,
        _abVariant := some Variant.A }
    ∧ (getA (loadState (applyVariant true
      { intent := Intent.COMPARE, confidence := 1, template := "t",
        templateName := "T", templateCssClass := "c", hero_image := "i",
        hero_image_alt := "a", headline := "H", subheadline := "S",
        cta_text := "C", cta_link := "L", badges := [], reason := "R",
        signals_used := [], signal_details := [],
        intent_scores := ScoreVector.zero, timestamp := "ts",
        engine_version := "1.0.0", fallback_used := false, _abVariant := none }
      ⟨true, none, none⟩ Variant.A).2.1).impressions
        (Intent.COMPARE, Variant.A)).getD 0 = 1 := by
  have h := applyVariant_frame true
    { intent := Intent.COMPARE, confidence := 1, template := "t",
      templateName := "T", templateCssClass := "c", hero_image := "i",
      hero_image_alt := "a", headline := "H", subheadline := "S",
      cta_text := "C", cta_link := "L", badges := [], reason := "R",
      signals_used := [], signal_details := [],
      intent_scores := ScoreVector.zero, timestamp := "ts",
      engine_version := "1.0.0", fallback_used := false, _abVariant := none }
    ⟨true, none, none⟩ Variant.A rfl rfl (by decide)
  refine ⟨h.1, ?_⟩
  rw [h.2.2.1]
  rfl

/-! Percent-decoding safety lemmas. -/

/-- Tokenization succeeds on any component whose escapes are well-formed
ASCII escapes, and the resulting escape bytes are all below 0x80. -/
theorem uriTokenize_ok_of_asciiEscaped_len (n : ℕ) : ∀ cs : List Char,
    cs.length ≤ n → asciiEscaped cs = true →
    ∃ ts, uriTokenize cs = .ok ts ∧ tokensAscii ts = true := by
  induction n with
  | zero =>
    intro cs hlen _
    have : cs = [] := List.eq_nil_of_length_eq_zero (Nat.le_zero.mp hlen)
    subst this
    exact ⟨[], rfl, rfl⟩
  | succ n ih =>
    intro cs hlen h
    cases cs with
    | nil => exact ⟨[], rfl, rfl⟩
    | cons c rest =>
      cases rest with
      | nil =>
        by_cases hc : c = '%'
        · subst hc
          exact absurd h (by decide)
        · refine ⟨[.lit c], ?_, rfl⟩
          rw [show uriTokenize [c] =
            (if c = '%' then Except.error () else do
              let ts ← uriTokenize []
              Except.ok (UriToken.lit c :: ts)) from rfl, if_neg hc]
          rfl
      | cons h₁ rest₁ =>
        cases rest₁ with
        | nil =>
          by_cases hc : c = '%'
          · subst hc
            rw [show asciiEscaped ('%' :: [h₁]) = false from rfl] at h
            cases h
          · have h' : asciiEscaped [h₁] = true := by
              rw [show asciiEscaped (c :: [h₁]) =
                (if c = '%' then false else asciiEscaped [h₁]) from rfl,
                if_neg hc] at h
              exact h
            obtain ⟨ts, htok, hta⟩ := ih [h₁]
              (by simp only [List.length_cons] at hlen ⊢; omega) h'
            refine ⟨.lit c :: ts, ?_, ?_⟩
            · rw [show uriTokenize (c :: [h₁]) =
                (if c = '%' then Except.error () else do
                  let ts₂ ← uriTokenize [h₁]
                  Except.ok (UriToken.lit c :: ts₂)) from rfl,
                if_neg hc, htok]
              rfl
            · show tokensAscii ts = true
              exact hta
        | cons h₂ rest₂ =>
          rw [show asciiEscaped (c :: h₁ :: h₂ :: rest₂) =
            (if c = '%' then
              (match hexVal h₁, hexVal h₂ with
               | some a, some b => Decidable.decide (16 * a + b < 0x80)
               | _, _ => false) && asciiEscaped rest₂
             else asciiEscaped (h₁ :: h₂ :: rest₂)) from rfl] at h
          have ht : uriTokenize (c :: h₁ :: h₂ :: rest₂) =
              (if c = '%' then
                (match hexVal h₁, hexVal h₂ with
                 | some a, some b => do
                   let ts ← uriTokenize rest₂
                   Except.ok (UriToken.esc (16 * a + b) :: ts)
                 | _, _ => Except.error ())
               else do
                 let ts ← uriTokenize (h₁ :: h₂ :: rest₂)
                 Except.ok (UriToken.lit c :: ts)) := rfl
          by_cases hc : c = '%'
          · rw [if_pos hc, Bool.and_eq_true] at h
            obtain ⟨hbyte, hrest⟩ := h
            cases ha : hexVal h₁ <;> rw [ha] at hbyte
            · cases hbyte
            · cases hb : hexVal h₂ <;> rw [hb] at hbyte
              · cases hbyte
              · rename_i a b
                obtain ⟨ts, htok, hta⟩ := ih rest₂
                  (by simp only [List.length_cons] at hlen; omega) hrest
                refine ⟨.esc (16 * a + b) :: ts, ?_, ?_⟩
                · rw [ht, if_pos hc]
                  simp only [ha, hb]
                  rw [htok]
                  rfl
                · show (Decidable.decide (16 * a + b < 0x80) && tokensAscii ts) = true
                  rw [Bool.and_eq_true]
                  exact ⟨hbyte, hta⟩
          · rw [if_neg hc] at h
            obtain ⟨ts, htok, hta⟩ := ih (h₁ :: h₂ :: rest₂)
              (by simp only [List.length_cons] at hlen ⊢; omega) h
            refine ⟨.lit c :: ts, ?_, ?_⟩
            · rw [ht, if_neg hc, htok]
              rfl
            · show tokensAscii ts = true
              exact hta

/-- Decoding with sufficient fuel succeeds on token lists whose escape
bytes are all ASCII. -/
theorem uriDecodeTokensF_ok_of_ascii (n : ℕ) : ∀ ts : List UriToken,
    ts.length ≤ n → tokensAscii ts = true →
    ∃ cs, uriDecodeTokensF n ts = .ok cs := by
  induction n with
  | zero =>
    intro ts hlen _
    have : ts = [] := List.eq_nil_of_length_eq_zero (Nat.le_zero.mp hlen)
    subst this
    exact ⟨[], rfl⟩
  | succ n ih =>
    intro ts hlen h
    cases ts with
    | nil => exact ⟨[], rfl⟩
    | cons t rest =>
      cases t with
      | lit c =>
        obtain ⟨cs, hcs⟩ := ih rest
          (by simp only [List.length_cons] at hlen; omega) (by exact h)
        refine ⟨c :: cs, ?_⟩
        show (do
          let cs₂ ← uriDecodeTokensF n rest
          Except.ok (c :: cs₂)) = Except.ok (c :: cs)
        rw [hcs]
        rfl
      | esc b =>
        rw [show tokensAscii (UriToken.esc b :: rest) =
            (Decidable.decide (b < 0x80) && tokensAscii rest) from rfl,
          Bool.and_eq_true, decide_eq_true_eq] at h
        obtain ⟨hb, h'⟩ := h
        obtain ⟨cs, hcs⟩ := ih rest
          (by simp only [List.length_cons] at hlen; omega) h'
        refine ⟨Char.ofNat b :: cs, ?_⟩
        change (if b < 0x80 then (do
            let cs₂ ← uriDecodeTokensF n rest
            Except.ok (Char.ofNat b :: cs₂)) else _) = Except.ok (Char.ofNat b :: cs)
        rw [if_pos hb, hcs]
        rfl

/-- Decoding a full token list succeeds when every escape byte is ASCII. -/
theorem uriDecodeTokens_ok_of_ascii (ts : List UriToken)
    (h : tokensAscii ts = true) : ∃ cs, uriDecodeTokens ts = .ok cs :=
  uriDecodeTokensF_ok_of_ascii ts.length ts le_rfl h

/-- `decodeURIComponent` never throws on ASCII-well-formed components. -/
theorem decodeURIComponent_ok (s : String) (h : asciiEscaped s.toList = true) :
    ∃ out, decodeURIComponent s = .ok out := by
  obtain ⟨ts, htok, hta⟩ :=
    uriTokenize_ok_of_asciiEscaped_len s.toList.length s.toList le_rfl h
  obtain ⟨cs, hcs⟩ := uriDecodeTokens_ok_of_ascii ts hta
  refine ⟨String.mk cs, ?_⟩
  show (do
    let ts₂ ← uriTokenize s.toList
    let cs₂ ← uriDecodeTokens ts₂
    Except.ok (String.mk cs₂)) = Except.ok (String.mk cs)
  rw [htok]
  show (do
    let cs₂ ← uriDecodeTokens ts
    Except.ok (String.mk cs₂)) = Except.ok (String.mk cs)
  rw [hcs]
  rfl

/-- The parameter-parsing fold succeeds when every pair decodes. -/
theorem foldlM_params_ok (l : List String)
    (h : ∀ pair ∈ l, asciiEscaped ((jsSplit pair '=').headD "").toList = true
      ∧ asciiEscaped (((jsSplit pair '=')[1]?).getD "").toList = true)
    (acc : Params) :
    ∃ r, l.foldlM
      (fun ps pair => do
        let parts := jsSplit pair '='
        let k ← decodeURIComponent (parts.headD "")
        let v ← decodeURIComponent ((parts[1]?).getD "")
        .ok (setA ps k v))
      acc = .ok r := by
  induction l generalizing acc with
  | nil => exact ⟨acc, rfl⟩
  | cons p rest ih =>
    obtain ⟨hk, hv⟩ := h p (by simp)
    obtain ⟨ko, hko⟩ := decodeURIComponent_ok _ hk
    obtain ⟨vo, hvo⟩ := decodeURIComponent_ok _ hv
    obtain ⟨r, hr⟩ := ih (fun q hq => h q (by simp [hq])) (setA acc ko vo)
    refine ⟨r, ?_⟩
    rw [List.foldlM_cons]
    simp only [hko, hvo]
    exact hr

/-- C8 counterexample: the query string `a=%` (a malformed
percent-encoding supplied by the host environment) makes
`parseQueryParams` throw a `URIError` from `decodeURIComponent`,
contradicting the claim that it never throws. -/
theorem parseQueryParams_counterexample :
    parseQueryParams "a=%" = .error () := by rfl

/-- C8 (amended): `parseQueryParams` can throw on malformed
percent-encodings; for every query string whose `&`/`=`-separated
components carry only well-formed ASCII percent-escapes it returns
without throwing, and the signal extractors treat every missing optional
context field (params, referrer, persona attributes) as a zero score
vector with no signals rather than an exception. -/
theorem extractors_tolerate_missing_fields (search : String)
    (h : ∀ pair ∈ jsSplit search '&',
      asciiEscaped ((jsSplit pair '=').headD "").toList = true
      ∧ asciiEscaped (((jsSplit pair '=')[1]?).getD "").toList = true) :
    (∃ ps, parseQueryParams search = .ok ps)
    ∧ detectFromQueryParams [] = (ScoreVector.zero, [])
    ∧ detectFromReferrer "" = (ScoreVector.zero, [])
    ∧ detectFromBehavior [] = (ScoreVector.zero, [])
    ∧ detectFromPersonaToggle none none = (ScoreVector.zero, []) := by
  refine ⟨?_, rfl, rfl, rfl, rfl⟩
  by_cases hs : search = ""
  · exact ⟨[], by simp [parseQueryParams, hs]⟩
  · simp only [parseQueryParams, if_neg hs]
    exact foldlM_params_ok _ h []

/-- C8 witness: a concrete query string with a well-formed `%20` escape
parses successfully. -/
theorem extractors_tolerate_missing_fields_witness :
    (parseQueryParams "intent=budget&q=4k%20monitor").toOption.isSome = true := by
  obtain ⟨ps, hps⟩ :=
    (extractors_tolerate_missing_fields "intent=budget&q=4k%20monitor"
      (by decide)).1
  rw [hps]
  rfl

/-! Score-vector arithmetic lemmas for the override-dominance proof. -/

theorem addVec_get (a b : ScoreVector) (j : Intent) :
    (addVec a b).get j = a.get j + b.get j := by
  cases j <;> rfl

theorem zero_get (j : Intent) : ScoreVector.zero.get j = 0 := by
  cases j <;> rfl

theorem add_get_self (X : Intent) (w : ℚ) :
    (ScoreVector.zero.add X w).get X = w := by
  cases X <;> simp [ScoreVector.add, ScoreVector.get, ScoreVector.zero]

theorem add_get_ne (X Y : Intent) (w : ℚ) (h : Y ≠ X) :
    (ScoreVector.zero.add X w).get Y = 0 := by
  cases X <;> cases Y <;>
    simp_all [ScoreVector.add, ScoreVector.get, ScoreVector.zero]

theorem foldl7_get (v₁ v₂ v₃ v₄ v₅ v₆ v₇ : ScoreVector) (j : Intent) :
    (List.foldl addVec ScoreVector.zero [v₁, v₂, v₃, v₄, v₅, v₆, v₇]).get j =
      v₁.get j + v₂.get j + v₃.get j + v₄.get j + v₅.get j + v₆.get j + v₇.get j := by
  simp [List.foldl, addVec_get, zero_get]

theorem within_get (v b : ScoreVector) (h : within v b) (j : Intent) :
    0 ≤ v.get j ∧ v.get j ≤ b.get j := by
  obtain ⟨h₁, h₂, h₃, h₄, h₅⟩ := h
  cases j <;> assumption

/-! Per-extractor contribution bounds. -/

theorem referrer_within (referrer : String) :
    within (detectFromReferrer referrer).1 ⟨0.2, 0.35, 0.25, 0.35, 0.15⟩ := by
  by_cases href : referrer = ""
  · simp only [detectFromReferrer, if_pos href]
    norm_num [within, ScoreVector.zero]
  · simp only [detectFromReferrer, if_neg href]
    cases hfind : REFERRER_PATTERNS.find?
        (fun p => jsIncludes (jsToLower referrer) p.1) with
    | none => norm_num [within, ScoreVector.zero]
    | some p =>
      have hp := List.mem_of_find?_eq_some hfind
      simp only [REFERRER_PATTERNS, List.mem_cons, List.not_mem_nil, or_false] at hp
      rcases hp with h|h|h|h|h|h|h|h|h|h|h|h|h <;> subst h <;>
        norm_num [within, ScoreVector.add, ScoreVector.zero]

theorem behavior_within (ps : Params) :
    within (detectFromBehavior ps).1 ⟨0.3, 0.2, 0.25, 0.3, 0⟩ := by
  cases ht : getTruthy ps "behavior" with
  | none =>
    simp only [detectFromBehavior, ht]
    norm_num [within, ScoreVector.zero]
  | some b =>
    simp only [detectFromBehavior, ht]
    cases hg : getA behaviorMap (jsToLower b) with
    | none => norm_num [within, ScoreVector.zero]
    | some cfg =>
      have hp := getA_mem _ _ _ hg
      simp only [behaviorMap, List.mem_cons, List.not_mem_nil, or_false,
        Prod.mk.injEq] at hp
      rcases hp with ⟨-, h⟩|⟨-, h⟩|⟨-, h⟩|⟨-, h⟩|⟨-, h⟩ <;> subst h <;>
        norm_num [within, ScoreVector.add, ScoreVector.zero]

theorem device_within (isTouch : Bool) (screenWidth : ℕ) :
    within (detectFromDeviceType isTouch screenWidth).1 ⟨0.15, 0.15, 0.1, 0, 0⟩ := by
  simp only [detectFromDeviceType]
  split_ifs <;> norm_num [within, ScoreVector.add, ScoreVector.zero]

theorem time_within (hour : ℕ) :
    within (detectFromTimeOfDay hour).1 ⟨0.12, 0.1, 0.12, 0.1, 0⟩ := by
  simp only [detectFromTimeOfDay]
  split_ifs <;> norm_num [within, ScoreVector.add, ScoreVector.zero]

theorem screen_within (viewportWidth : ℕ) (pixelRatio : ℚ) (screenWidth : ℕ) :
    within (detectFromScreenSize viewportWidth pixelRatio screenWidth).1
      ⟨0, 0.1, 0.15, 0.1, 0.05⟩ := by
  simp only [detectFromScreenSize]
  split_ifs <;> norm_num [within, ScoreVector.add, ScoreVector.zero]

/-- The strict-max scan returns the unique strict maximum. -/
theorem maxScan_unique (v : ScoreVector) (X : Intent) (hX : X ≠ Intent.DEFAULT)
    (hpos : 0 < v.get X)
    (hmax : ∀ Y, Y ≠ Intent.DEFAULT → Y ≠ X → v.get Y < v.get X) :
    maxScan v = (v.get X, X) := by
  cases X with
  | DEFAULT => exact absurd rfl hX
  | BUY_NOW =>
    have hC := hmax Intent.COMPARE (by decide) (by decide)
    have hU := hmax Intent.USE_CASE (by decide) (by decide)
    have hB := hmax Intent.BUDGET (by decide) (by decide)
    simp only [maxScan, List.foldl]
    split_ifs <;> first | rfl | (exfalso; linarith)
  | COMPARE =>
    have hN := hmax Intent.BUY_NOW (by decide) (by decide)
    have hU := hmax Intent.USE_CASE (by decide) (by decide)
    have hB := hmax Intent.BUDGET (by decide) (by decide)
    simp only [maxScan, List.foldl]
    split_ifs <;> first | rfl | (exfalso; linarith)
  | USE_CASE =>
    have hN := hmax Intent.BUY_NOW (by decide) (by decide)
    have hC := hmax Intent.COMPARE (by decide) (by decide)
    have hB := hmax Intent.BUDGET (by decide) (by decide)
    simp only [maxScan, List.foldl]
    split_ifs <;> first | rfl | (exfalso; linarith)
  | BUDGET =>
    have hN := hmax Intent.BUY_NOW (by decide) (by decide)
    have hC := hmax Intent.COMPARE (by decide) (by decide)
    have hU := hmax Intent.USE_CASE (by decide) (by decide)
    simp only [maxScan, List.foldl]
    split_ifs <;> first | rfl | (exfalso; linarith)

/-- `detect` returns a result whenever the query string parses. -/
theorem detect_ok_of_parse (ctx : Context) (ts : String) (ps : Params)
    (hps : parseQueryParams ctx.search = .ok ps) :
    ∃ r, detect ctx ts = .ok r := by
  apply Exists.intro
  unfold detect
  rw [hps]
  rfl

/-- C5 counterexample: with `intent=budget` in the query string but a
persona DOM attribute `compare` on the hero container, the persona
extractor also contributes weight 1.0; COMPARE then reaches the running
maximum before BUDGET in iteration order, so the full pipeline returns
COMPARE — the explicit override does not always win. -/
theorem query_override_wins_counterexample :
    getTruthy [("intent", "budget")] "intent" = some "budget"
    ∧ toIntentName "budget" = some Intent.BUDGET
    ∧ (detect ⟨"intent=budget", "", some "compare", none, false, 1920, 1920, 1, 12⟩
        "t").map (fun r => r.intent) = .ok Intent.COMPARE
    ∧ Intent.COMPARE ≠ Intent.BUDGET := by
  refine ⟨rfl, rfl, ?_, by decide⟩
  have hps : parseQueryParams "intent=budget" =
      Except.ok [("intent", "budget")] := by rfl
  unfold detect
  rw [show (⟨"intent=budget", "", some "compare", none, false, 1920, 1920, 1, 12⟩ :
      Context).search = "intent=budget" from rfl, hps]
  change Except.ok ((aggregateScores
    [(detectFromQueryParams [("intent", "budget")]).1,
     (detectFromReferrer "").1,
     (detectFromBehavior [("intent", "budget")]).1,
     (detectFromPersonaToggle (some "compare") none).1,
     (detectFromDeviceType false 1920).1,
     (detectFromTimeOfDay 12).1,
     (detectFromScreenSize 1920 1 1920).1]).intent) = Except.ok Intent.COMPARE
  have h1 : (detectFromQueryParams [("intent", "budget")]).1 =
      ScoreVector.zero.add Intent.BUDGET 1 := rfl
  have h2 : (detectFromReferrer "").1 = ScoreVector.zero := rfl
  have h3 : (detectFromBehavior [("intent", "budget")]).1 = ScoreVector.zero := rfl
  have h4 : (detectFromPersonaToggle (some "compare") none).1 =
      ScoreVector.zero.add Intent.COMPARE 1 := rfl
  have h5 : (detectFromDeviceType false 1920).1 =
      ScoreVector.zero.add Intent.BUY_NOW 0.15 := rfl
  have h6 : (detectFromTimeOfDay 12).1 =
      ScoreVector.zero.add Intent.USE_CASE 0.12 := rfl
  have h7 : (detectFromScreenSize 1920 1 1920).1 =
      ScoreVector.zero.add Intent.DEFAULT 0.05 := by
    simp only [detectFromScreenSize]
    norm_num
  rw [h1, h2, h3, h4, h5, h6, h7]
  have htot : List.foldl addVec ScoreVector.zero
      [ScoreVector.zero.add Intent.BUDGET 1, ScoreVector.zero, ScoreVector.zero,
       ScoreVector.zero.add Intent.COMPARE 1,
       ScoreVector.zero.add Intent.BUY_NOW 0.15,
       ScoreVector.zero.add Intent.USE_CASE 0.12,
       ScoreVector.zero.add Intent.DEFAULT 0.05] =
      ⟨0.15, 1, 0.12, 1, 0.05⟩ := by
    norm_num [List.foldl, addVec, ScoreVector.add, ScoreVector.zero]
  have hms : maxScan ⟨0.15, 1, 0.12, 1, 0.05⟩ = (1, Intent.COMPARE) := by
    norm_num [maxScan, List.foldl, ScoreVector.get]
  simp only [aggregateScores, htot, hms]
  norm_num

/-- C5 (amended): when the query string carries an explicit
`intent=<intent name>` override for a non-DEFAULT intent and no persona
DOM attribute is present on the hero container or the script tag, the
full `detect` pipeline returns the override intent as the winning
intent, regardless of what the referrer, behavior, device, time-of-day
and screen extractors contribute.  (The DOM persona extractor also uses
weight 1.0 and can tie or beat the override — see the counterexample —
and an `intent=default` override cannot win because DEFAULT is skipped
by the maximum scan.) -/
theorem query_override_wins (ctx : Context) (ts : String) (ps : Params)
    (s : String) (X : Intent)
    (hps : parseQueryParams ctx.search = .ok ps)
    (hint : getTruthy ps "intent" = some s)
    (hx : toIntentName s = some X)
    (hX : X ≠ Intent.DEFAULT)
    (hhp : ctx.heroPersona = none)
    (hsp : ctx.scriptPersona = none) :
    (detect ctx ts).map (fun r => r.intent) = .ok X := by
  unfold detect
  rw [hps]
  change Except.ok ((aggregateScores
    [(detectFromQueryParams ps).1,
     (detectFromReferrer ctx.referrer).1,
     (detectFromBehavior ps).1,
     (detectFromPersonaToggle ctx.heroPersona ctx.scriptPersona).1,
     (detectFromDeviceType ctx.isTouch ctx.screenWidth).1,
     (detectFromTimeOfDay ctx.hour).1,
     (detectFromScreenSize ctx.viewportWidth ctx.pixelRatio ctx.screenWidth).1]).intent)
    = Except.ok X
  have hq : (detectFromQueryParams ps).1 = ScoreVector.zero.add X 1 := by
    simp only [detectFromQueryParams, hint, hx]
  have hpers : (detectFromPersonaToggle ctx.heroPersona ctx.scriptPersona).1 =
      ScoreVector.zero := by
    rw [hhp, hsp]
    rfl
  rw [hq, hpers]
  have hR := within_get _ _ (referrer_within ctx.referrer)
  have hB := within_get _ _ (behavior_within ps)
  have hD := within_get _ _ (device_within ctx.isTouch ctx.screenWidth)
  have hT := within_get _ _ (time_within ctx.hour)
  have hS := within_get _ _
    (screen_within ctx.viewportWidth ctx.pixelRatio ctx.screenWidth)
  set vR := (detectFromReferrer ctx.referrer).1 with hvR
  set vB := (detectFromBehavior ps).1 with hvB
  set vD := (detectFromDeviceType ctx.isTouch ctx.screenWidth).1 with hvD
  set vT := (detectFromTimeOfDay ctx.hour).1 with hvT
  set vS := (detectFromScreenSize ctx.viewportWidth ctx.pixelRatio
    ctx.screenWidth).1 with hvS
  set TOT := List.foldl addVec ScoreVector.zero
    [ScoreVector.zero.add X 1, vR, vB, ScoreVector.zero, vD, vT, vS] with hTOT
  have htot : ∀ j, TOT.get j = (ScoreVector.zero.add X 1).get j +
      vR.get j + vB.get j + vD.get j + vT.get j + vS.get j := by
    intro j
    rw [hTOT, foldl7_get, zero_get]
    ring
  have hposX : 1 ≤ TOT.get X := by
    have heq := htot X
    rw [add_get_self] at heq
    linarith [(hR X).1, (hB X).1, (hD X).1, (hT X).1, (hS X).1]
  have hmax : ∀ Y, Y ≠ Intent.DEFAULT → Y ≠ X → TOT.get Y < TOT.get X := by
    intro Y hYd hYX
    have heq := htot Y
    rw [add_get_ne X Y 1 hYX] at heq
    have h1 := (hR Y).2
    have h2 := (hB Y).2
    have h3 := (hD Y).2
    have h4 := (hT Y).2
    have h5 := (hS Y).2
    cases Y with
    | DEFAULT => exact absurd rfl hYd
    | BUY_NOW =>
      simp only [ScoreVector.get] at h1 h2 h3 h4 h5 heq
      norm_num at h1 h2 h3 h4 h5 heq
      show TOT.BUY_NOW < TOT.get X
      linarith [hposX]
    | COMPARE =>
      simp only [ScoreVector.get] at h1 h2 h3 h4 h5 heq
      norm_num at h1 h2 h3 h4 h5 heq
      show TOT.COMPARE < TOT.get X
      linarith [hposX]
    | USE_CASE =>
      simp only [ScoreVector.get] at h1 h2 h3 h4 h5 heq
      norm_num at h1 h2 h3 h4 h5 heq
      show TOT.USE_CASE < TOT.get X
      linarith [hposX]
    | BUDGET =>
      simp only [ScoreVector.get] at h1 h2 h3 h4 h5 heq
      norm_num at h1 h2 h3 h4 h5 heq
      show TOT.BUDGET < TOT.get X
      linarith [hposX]
  have hms := maxScan_unique TOT X hX (by linarith) hmax
  have hnotlt : ¬ (TOT.get X < 0.1) := by
    norm_num
    linarith
  simp only [aggregateScores, hms]
  rw [if_neg hnotlt]

/-- C5 witness: a Google-referred mobile visitor at night with
`intent=budget` in the query and no persona attributes gets BUDGET. -/
theorem query_override_wins_witness :
    (detect ⟨"intent=budget", "https://www.google.com/search?q=x", none, none,
      true, 600, 800, 1, 3⟩ "t").map (fun r => r.intent) = .ok Intent.BUDGET :=
  query_override_wins
    ⟨"intent=budget", "https://www.google.com/search?q=x", none, none,
      true, 600, 800, 1, 3⟩ "t" [("intent", "budget")] "budget" Intent.BUDGET
    (by rfl) (by rfl) (by rfl) (by decide) rfl rfl

end IntentFlow